import Mathlib

/-!
Verification development for the synthetic data generator
`utils/generate_synthetic_data.py` of the VoltStream EV OPE repository.

The Python module is embedded shallowly:

* The two pseudorandom modules (`random` and `numpy.random`) and the
  `uuid.uuid4` entropy source are modelled as oracle streams collected in
  a read-only `World`.  A draw of `random.random()` is the fractional part
  of the stream value (so it always lies in `[0, 1)`, as in CPython), a
  draw of `np.random.normal(mu, sigma)` is `mu + sigma * z` where `z` is
  the raw stream value (a standard normal draw can be any real, so `z` is
  unconstrained), and a `uuid4` draw is a string taken from a
  process-global entropy stream that no seed controls.  The cursor into
  each stream is the mutable random state `RState`; `random.seed` /
  `np.random.seed` reset the module seed and cursor, but cannot reset the
  uuid entropy cursor, exactly as in the source.
* Each primitive draw consumes one stream element.  The exact number of
  words of Mersenne-Twister state consumed by each CPython primitive is
  not modelled; the stream is the sequence of primitive draws, which
  preserves value ranges, draw order and determinism-in-the-seed.
* `datetime` values are seconds since 2024-10-01 00:00:00 (the module's
  `START_DATE`); `timedelta` arithmetic and comparisons translate
  directly.  A `date` is the day index `t / 86400`.  The ISO strings
  written to the CSV are in order-preserving bijection with these
  numbers, so equalities and inequalities of rows transfer.
* Python's `round(x, p)` is rounding to `p` decimal digits (ties modelled
  half-up; every use in the source rounds a continuous draw, and the
  bounds proved here are preserved by any tie rule).  `int(x)` truncates
  toward zero.
* CSV writing is modelled by returning the generated dataframe; the
  written bytes are a fixed injective rendering of it.

Every generator of the source module is embedded, together with the
dataset registry, `validate_dataframe`, `generate_single_dataset` and
`validate_joins`, and the claims C1-C10 are settled as theorems below.
-/

namespace VoltStream

/-! ## Oracle model of the random sources -/

/-- Read-only collection of oracle streams for the process's random
sources.  `mtSeq seed i` is the `i`-th primitive draw of the `random`
module after `random.seed seed` (used through its fractional part);
`npSeq seed i` is the `i`-th raw standard-normal draw of `np.random`
after `np.random.seed seed`; `uuidSeq i` is the `i`-th `uuid4` string of
the process, an entropy source that no seed call controls. -/
structure World where
  mtSeq : ℕ → ℕ → ℚ
  npSeq : ℕ → ℕ → ℚ
  uuidSeq : ℕ → String

/-- Mutable random state of the process: the current seed and cursor of
the `random` module, of `np.random`, and the cursor into the process
uuid entropy stream. -/
structure RState where
  pySeed : ℕ
  pyPos : ℕ
  npSeed : ℕ
  npPos : ℕ
  uuidPos : ℕ
deriving DecidableEq

/-- One draw of `random.random()`: a rational in `[0, 1)`. -/
def pyRandom (w : World) (s : RState) : ℚ × RState :=
  (Int.fract (w.mtSeq s.pySeed s.pyPos), { s with pyPos := s.pyPos + 1 })

/-- `random.uniform(a, b)` (`a + (b-a) * random()`). -/
def pyUniform (w : World) (a b : ℚ) (s : RState) : ℚ × RState :=
  let us := pyRandom w s
  (a + (b - a) * us.1, us.2)

/-- `random.randint(a, b)`: an integer in `[a, b]` (both ends included). -/
def pyRandint (w : World) (a b : ℤ) (s : RState) : ℤ × RState :=
  let us := pyRandom w s
  (a + ⌊us.1 * ((b : ℚ) - a + 1)⌋, us.2)

/-- `random.choice(l)` for the non-empty literal lists of the source
(`d` is a default that is never reached for those lists). -/
def pyChoice {α : Type} (w : World) (l : List α) (d : α) (s : RState) : α × RState :=
  let us := pyRandom w s
  (l.getD (⌊us.1 * (l.length : ℚ)⌋).toNat d, us.2)

/-- `np.random.normal(mu, sigma)`: `mu + sigma * z` with `z` the raw
(unbounded) stream value. -/
def npNormal (w : World) (mu sigma : ℚ) (s : RState) : ℚ × RState :=
  (mu + sigma * w.npSeq s.npSeed s.npPos, { s with npPos := s.npPos + 1 })

/-- Python's `round(x, p)` (ties half-up, see the module comment). -/
def pyRound (p : ℕ) (x : ℚ) : ℚ :=
  (⌊x * 10 ^ p + 1 / 2⌋ : ℚ) / 10 ^ p

/-- Python's `int(x)`: truncation toward zero. -/
def pyInt (x : ℚ) : ℤ :=
  if 0 ≤ x then ⌊x⌋ else -⌊-x⌋

/-- `str(uuid.uuid4())` (`generate_uuid` in the source): the next string
of the process entropy stream; `random.seed` does not influence it. -/
def generate_uuid (w : World) (s : RState) : String × RState :=
  (w.uuidSeq s.uuidPos, { s with uuidPos := s.uuidPos + 1 })

/-! ## State-threading loop combinators

The source's `for` loops append records while mutating the global random
state (and occasionally an id counter); they are embedded as folds that
thread an explicit state `σ` (the random state, possibly paired with a
counter) left-to-right through the iteration, in source order. -/

/-- Fold a record-producing body over a list, threading the state. -/
def stMap {α β σ : Type} (f : α → σ → β × σ) : List α → σ → List β × σ
  | [], s => ([], s)
  | a :: l, s =>
    let bs := f a s
    let rest := stMap f l bs.2
    (bs.1 :: rest.1, rest.2)

/-- Fold a list-producing body over a list, threading the state. -/
def stFold {α β σ : Type} (f : α → σ → List β × σ) : List α → σ → List β × σ
  | [], s => ([], s)
  | a :: l, s =>
    let bs := f a s
    let rest := stFold f l bs.2
    (bs.1 ++ rest.1, rest.2)

/-- The ticks visited by `while t <= stop: ... t += stride`, starting at
`start` (the datetime/day loops of the source). -/
def ticksFrom (start stride stop : ℕ) : List ℕ :=
  (List.range (if start ≤ stop then (stop - start) / stride + 1 else 0)).map
    fun k => start + stride * k

/-! ## Module configuration constants -/

def RANDOM_SEED : ℕ := 42

def secondsPerDay : ℕ := 86400

/-- `datetime(2024, 10, 1)`, the origin of the time axis. -/
def START_DATE : ℕ := 0

/-- `datetime(2024, 12, 31)`: midnight, 91 days after `START_DATE`. -/
def END_DATE : ℕ := 91 * secondsPerDay

/-- `datetime(2024, 12, 9)`: 69 days after `START_DATE`. -/
def CRISIS_START : ℕ := 69 * secondsPerDay

/-- `datetime(2024, 12, 11, 23, 59, 59)`. -/
def CRISIS_END : ℕ := 71 * secondsPerDay + 86399

def PRODUCTION_LINES : List String :=
  ["LINE_1", "LINE_2", "LINE_3", "LINE_4", "LINE_5"]

/-- Zero-padded 3-digit rendering of `1 <= n <= 999` (`f-string 03d`). -/
def pad3 (n : ℕ) : String :=
  if n < 10 then "00" ++ toString n
  else if n < 100 then "0" ++ toString n
  else toString n

/-- `[f'AGV_{i:03d}' for i in range(1, 21)]`. -/
def AGVS : List String :=
  (List.range 20).map fun i => "AGV_" ++ pad3 (i + 1)

def ZONES : List String := ["ZONE_A", "ZONE_B", "ZONE_C", "ZONE_D"]

def SHIFTS : List String := ["SHIFT_1", "SHIFT_2", "SHIFT_3"]

structure Product where
  sku : String
  name : String
  category : String
deriving DecidableEq

def PRODUCTS : List Product :=
  [⟨"BP-100", "Battery Pack 100kWh", "BATTERY_PACK"⟩,
   ⟨"BP-150", "Battery Pack 150kWh", "BATTERY_PACK"⟩,
   ⟨"MOD-20", "Battery Module 20kWh", "MODULE"⟩,
   ⟨"MOD-25", "Battery Module 25kWh", "MODULE"⟩,
   ⟨"CELL-2170", "2170 Cell", "CELL"⟩,
   ⟨"CELL-4680", "4680 Cell", "CELL"⟩]

/-! ## Helper functions of the source -/

/-- `is_crisis_period`: `CRISIS_START <= timestamp <= CRISIS_END`. -/
def is_crisis_period (t : ℕ) : Bool :=
  decide (CRISIS_START ≤ t ∧ t ≤ CRISIS_END)

/-- `get_shift_for_hour`: the if/elif/else chain of the source, over
Python's unbounded integers. -/
def get_shift_for_hour (hour : ℤ) : String :=
  if 6 ≤ hour ∧ hour < 14 then "SHIFT_1"
  else if 14 ≤ hour ∧ hour < 22 then "SHIFT_2"
  else "SHIFT_3"

/-- The day list of the generators that loop
`while current_date <= END_DATE.date()`: day indices `0 .. 91`. -/
def daysList : List ℕ := List.range (END_DATE / secondsPerDay + 1)

/-- Epoch seconds of `START_DATE` (2024-10-01 00:00:00, UTC assumed for
the naive datetimes), used by the `_CDC_SEQUENCE` columns
(`int(ts.timestamp() * 1000)`). -/
def epochMs (t : ℕ) : ℤ := ((1727740800 : ℤ) + t) * 1000

/-! ## Environmental sensor generator (`generate_env_sensor_data`)

The source iterates 5-minute ticks from `START_DATE` to `END_DATE`
inclusive; the start/end are taken as parameters here (the module
constants are supplied at the dataset registry), which is what lets the
1-day scenario of the spec be stated. -/

def SENSOR_TYPES : List String := ["HUMIDITY", "PM25", "TEMPERATURE"]

/-- One row of the environmental readings table.  Leading-underscore
CSV column names keep their name without the underscore here; timestamps
are numeric (see the module comment). -/
structure EnvReading where
  READING_ID : String
  SENSOR_ID : String
  SENSOR_TYPE : String
  ZONE_ID : String
  PRODUCTION_LINE_ID : String
  READING_TIMESTAMP : ℕ
  METRIC_NAME : String
  METRIC_VALUE : ℚ
  UNIT_OF_MEASURE : String
  QUALITY_FLAG : String
deriving DecidableEq

/-- The value/unit draw of one environmental record: the
if/elif/else chain over the sensor type (source lines 145-168).  Note
the crisis PM25 branch uses the constant `50 - 25`, and the temperature
branch applies no clamp, both exactly as in the source. -/
def envValue (w : World) (isCrisis : Bool) (sensorType : String) (s : RState) :
    (ℚ × String) × RState :=
  if sensorType = "HUMIDITY" then
    if isCrisis then
      let zs := npNormal w 25 3 s
      ((max 15 (min 40 zs.1), "%"), zs.2)
    else
      let zs := npNormal w 45 5 s
      ((max 30 (min 60 zs.1), "%"), zs.2)
  else if sensorType = "PM25" then
    if isCrisis then
      let zs := npNormal w 10 5 s
      ((max 5 (min 50 (50 - 25 + zs.1)), "µg/m³"), zs.2)
    else
      let zs := npNormal w 10 2 s
      ((max 2 (min 20 zs.1), "µg/m³"), zs.2)
  else
    let zs := npNormal w 22 (3 / 2) s
    ((zs.1, "°C"), zs.2)

/-- One environmental record (the dict literal of the source). -/
def envRecord (w : World) (isCrisis : Bool) (t : ℕ) (zone line sensorType : String)
    (s : RState) : EnvReading × RState :=
  let vs := envValue w isCrisis sensorType s
  let us := generate_uuid w vs.2
  ({ READING_ID := us.1
     SENSOR_ID := zone ++ "_" ++ line ++ "_" ++ sensorType ++ "_01"
     SENSOR_TYPE := sensorType
     ZONE_ID := zone
     PRODUCTION_LINE_ID := line
     READING_TIMESTAMP := t
     METRIC_NAME := sensorType
     METRIC_VALUE := pyRound 3 vs.1.1
     UNIT_OF_MEASURE := vs.1.2
     QUALITY_FLAG := "GOOD" }, us.2)

/-- One 5-minute tick: every zone x line x sensor type. -/
def envTick (w : World) (t : ℕ) (s : RState) : List EnvReading × RState :=
  let isCrisis := is_crisis_period t
  stFold (fun zone =>
      stFold (fun line =>
          stMap (fun sensorType => envRecord w isCrisis t zone line sensorType)
            SENSOR_TYPES)
        PRODUCTION_LINES)
    ZONES s

/-- `generate_env_sensor_data`, with the date range as parameters. -/
def generate_env_sensor_data (w : World) (startT stopT : ℕ) (s : RState) :
    List EnvReading × RState :=
  stFold (envTick w) (ticksFrom startT 300 stopT) s

/-! ## AGV telemetry generator (`generate_agv_telemetry`) -/

structure AgvTelemetry where
  MSG_ID : String
  AGV_ID : String
  EVENT_TIMESTAMP : ℕ
  X_COORD : ℚ
  Y_COORD : ℚ
  Z_COORD : ℚ
  ZONE_ID : String
  ROUTE_SEGMENT : String
  VELOCITY : ℚ
  BATTERY_LEVEL : ℚ
  PAYLOAD_ID : Option String
  ERROR_CODE : Option String
  ERROR_SEVERITY : Option String
  ERROR_MESSAGE : Option String
  CDC_OPERATION : String
  CDC_TIMESTAMP : ℕ
  CDC_SEQUENCE : ℤ
  CDC_SOURCE_SYSTEM : String
deriving DecidableEq

/-- Zero-padded 2-digit rendering (`f-string 02d`). -/
def pad2 (n : ℤ) : String :=
  if n < 10 then "0" ++ toString n else toString n

/-- One telemetry record for one AGV at one minute tick.  Draw order
follows the source: x, y, zone, route, the velocity conditional (the
uniform is drawn only when the sampled condition holds, as Python's
conditional expression evaluates its condition first), battery, the
regime-dependent error draw, then inside the dict literal the payload
conditional. -/
def agvRecord (w : World) (isCrisis : Bool) (t : ℕ) (agvId : String) (s : RState) :
    AgvTelemetry × RState :=
  let xs := pyUniform w 0 500 s
  let ys := pyUniform w 0 300 xs.2
  let zs := pyChoice w ZONES "ZONE_A" ys.2
  let rs := pyRandint w 1 10 zs.2
  let vc := pyRandom w rs.2
  let vs := if 1 / 10 < vc.1 then pyUniform w (1 / 2) 2 vc.2 else (0, vc.2)
  let bs := pyUniform w 20 100 vs.2
  let es :=
    if isCrisis then
      let rc := pyRandom w bs.2
      (if rc.1 < 15 / 100 then
          ((some "AGV-ERR-99", some "ERROR",
            some "Optical sensor obscured - reduced visibility detected") :
            Option String × Option String × Option String)
        else (none, none, none), rc.2)
    else
      let rc := pyRandom w bs.2
      if rc.1 < 1 / 1000 then
        let cs := pyChoice w ["AGV-ERR-01", "AGV-ERR-42", "AGV-ERR-55"] "AGV-ERR-01" rc.2
        (((some cs.1, some "WARNING", some "Minor operational issue detected") :
            Option String × Option String × Option String), cs.2)
      else ((none, none, none), rc.2)
  let ms := generate_uuid w es.2
  let pc := pyRandom w ms.2
  let ps :=
    if 3 / 10 < pc.1 then
      let bn := pyRandint w 1000 9999 pc.2
      ((some ("BATCH_" ++ toString bn.1) : Option String), bn.2)
    else (none, pc.2)
  ({ MSG_ID := ms.1
     AGV_ID := agvId
     EVENT_TIMESTAMP := t
     X_COORD := pyRound 3 xs.1
     Y_COORD := pyRound 3 ys.1
     Z_COORD := 0
     ZONE_ID := zs.1
     ROUTE_SEGMENT := "ROUTE_" ++ pad2 rs.1
     VELOCITY := pyRound 3 vs.1
     BATTERY_LEVEL := pyRound 2 bs.1
     PAYLOAD_ID := ps.1
     ERROR_CODE := es.1.1
     ERROR_SEVERITY := es.1.2.1
     ERROR_MESSAGE := es.1.2.2
     CDC_OPERATION := "INSERT"
     CDC_TIMESTAMP := t
     CDC_SEQUENCE := epochMs t
     CDC_SOURCE_SYSTEM := "SIEMENS_MES" }, ps.2)

/-- One 1-minute tick: every AGV. -/
def agvTick (w : World) (t : ℕ) (s : RState) : List AgvTelemetry × RState :=
  let isCrisis := is_crisis_period t
  stMap (fun agvId => agvRecord w isCrisis t agvId) AGVS s

/-- `generate_agv_telemetry`. -/
def generate_agv_telemetry (w : World) (s : RState) : List AgvTelemetry × RState :=
  stFold (agvTick w) (ticksFrom START_DATE 60 END_DATE) s

/-! ## Equipment state generator (`generate_equipment_states`) -/

structure EquipmentState where
  EVENT_ID : String
  ASSET_ID : String
  PRODUCTION_LINE_ID : String
  EVENT_TIMESTAMP : ℕ
  STATE_CODE : ℤ
  STATE_NAME : String
  REASON_CODE : Option String
  REASON_DESCRIPTION : Option String
  DURATION_SECONDS : ℤ
  SHIFT_ID : String
  OPERATOR_ID : String
  CDC_OPERATION : String
  CDC_TIMESTAMP : ℕ
  CDC_SEQUENCE : ℤ
  CDC_SOURCE_SYSTEM : String
deriving DecidableEq

/-- The state/reason/duration branch of one equipment-state record
(source lines 288-330).  The crisis flag is the day-level one (evaluated
at the day's midnight in the source). -/
def equipBranch (w : World) (isCrisis : Bool) (line : String) (s : RState) :
    (ℤ × String × Option String × Option String × ℤ) × RState :=
  if isCrisis ∧ line = "LINE_4" then
    let rc := pyRandom w s
    if rc.1 < 2 / 5 then
      let ds := pyRandint w 600 1800 rc.2
      ((2, "IDLE", some "STARVATION",
        some "Waiting for material - AGV delivery delayed", ds.1), ds.2)
    else ((1, "RUNNING", none, none, 3600), rc.2)
  else if isCrisis then
    let rc := pyRandom w s
    if rc.1 < 1 / 5 then
      let ds := pyRandint w 300 900 rc.2
      ((2, "IDLE", some "STARVATION", some "Waiting for material", ds.1), ds.2)
    else ((1, "RUNNING", none, none, 3600), rc.2)
  else
    let rc := pyRandom w s
    if rc.1 < 19 / 20 then ((1, "RUNNING", none, none, 3600), rc.2)
    else
      let cs := pyChoice w [(2 : ℤ), 3, 4] 2 rc.2
      let rs := pyChoice w ["CHANGEOVER", "MINOR_STOP", "ADJUSTMENT"] "CHANGEOVER" cs.2
      let ds := pyRandint w 60 300 rs.2
      ((cs.1, ["IDLE", "FAULT", "SETUP"].getD (cs.1 - 2).toNat "IDLE",
        some rs.1, some "Planned minor stop", ds.1), ds.2)

/-- One equipment-state record for line x hour of day `d`. -/
def equipRecord (w : World) (isCrisis : Bool) (d : ℕ) (line : String) (hour : ℕ)
    (s : RState) : EquipmentState × RState :=
  let eventTime := d * secondsPerDay + hour * 3600
  let br := equipBranch w isCrisis line s
  let us := generate_uuid w br.2
  let os := pyRandint w 100 999 us.2
  ({ EVENT_ID := us.1
     ASSET_ID := line ++ "_MAIN"
     PRODUCTION_LINE_ID := line
     EVENT_TIMESTAMP := eventTime
     STATE_CODE := br.1.1
     STATE_NAME := br.1.2.1
     REASON_CODE := br.1.2.2.1
     REASON_DESCRIPTION := br.1.2.2.2.1
     DURATION_SECONDS := br.1.2.2.2.2
     SHIFT_ID := get_shift_for_hour (hour : ℤ)
     OPERATOR_ID := "OP_" ++ toString os.1
     CDC_OPERATION := "INSERT"
     CDC_TIMESTAMP := eventTime
     CDC_SEQUENCE := epochMs eventTime
     CDC_SOURCE_SYSTEM := "SIEMENS_MES" }, os.2)

/-- One day of equipment states: every line x hour 0..23.  The crisis
flag is evaluated once per day at midnight, as in the source. -/
def equipDay (w : World) (d : ℕ) (s : RState) : List EquipmentState × RState :=
  let isCrisis := is_crisis_period (d * secondsPerDay)
  stFold (fun line => stMap (fun hour => equipRecord w isCrisis d line hour)
      (List.range 24))
    PRODUCTION_LINES s

/-- `generate_equipment_states`. -/
def generate_equipment_states (w : World) (s : RState) : List EquipmentState × RState :=
  stFold (equipDay w) daysList s

/-! ## Production order generator (`generate_prod_orders`)

The order-id counter starting at 1000000 is threaded through the state
alongside the random state. -/

structure ProdOrder where
  ORDER_ID : String
  ORDER_TYPE : String
  SKU : String
  TARGET_QTY : ℤ
  UNIT_OF_MEASURE : String
  SCHED_START : ℕ
  SCHED_END : ℕ
  ACTUAL_START : ℕ
  ACTUAL_END : Option ℕ
  PRODUCTION_LINE_ID : String
  WORK_CENTER_ID : String
  ORDER_STATUS : String
  PRIORITY : ℤ
  CDC_OPERATION : String
  CDC_TIMESTAMP : ℕ
  CDC_SEQUENCE : ℤ
  CDC_SOURCE_SYSTEM : String
deriving DecidableEq

/-- The `shift_start_hour` lookup dict of the source. -/
def shiftStartHour (shift : String) : ℕ :=
  if shift = "SHIFT_1" then 6 else if shift = "SHIFT_2" then 14 else 22

/-- One production order for day x line x shift.  (The source also
computes an `actual_qty` that appears in no column; it consumes no
draw.) -/
def orderRecord (w : World) (isCrisis : Bool) (d : ℕ) (line shift : String)
    (sn : RState × ℕ) : ProdOrder × (RState × ℕ) :=
  let prs := pyChoice w PRODUCTS ⟨"BP-100", "", ""⟩ sn.1
  let tqs := pyRandint w 50 200 prs.2
  let crs :=
    if isCrisis ∧ line = "LINE_4" then pyUniform w (3 / 5) (7 / 10) tqs.2
    else if isCrisis then pyUniform w (4 / 5) (9 / 10) tqs.2
    else pyUniform w (19 / 20) 1 tqs.2
  let schedStart := d * secondsPerDay + shiftStartHour shift * 3600
  let schedEnd := schedStart + 8 * 3600
  let pri := pyRandint w 1 5 crs.2
  ({ ORDER_ID := "PO" ++ toString sn.2
     ORDER_TYPE := "PP01"
     SKU := prs.1.sku
     TARGET_QTY := tqs.1
     UNIT_OF_MEASURE := "EA"
     SCHED_START := schedStart
     SCHED_END := schedEnd
     ACTUAL_START := schedStart
     ACTUAL_END := if crs.1 > 9 / 10 then some schedEnd else none
     PRODUCTION_LINE_ID := line
     WORK_CENTER_ID := "WC_" ++ line
     ORDER_STATUS := if crs.1 > 9 / 10 then "COMPLETED" else "STARTED"
     PRIORITY := pri.1
     CDC_OPERATION := "INSERT"
     CDC_TIMESTAMP := schedStart
     CDC_SEQUENCE := (sn.2 : ℤ)
     CDC_SOURCE_SYSTEM := "SAP_ERP" }, (pri.2, sn.2 + 1))

/-- One day of production orders: every line x shift.  The crisis flag
is evaluated at the day's midnight. -/
def ordersDay (w : World) (d : ℕ) (sn : RState × ℕ) :
    List ProdOrder × (RState × ℕ) :=
  let isCrisis := is_crisis_period (d * secondsPerDay)
  stFold (fun line => stMap (fun shift => orderRecord w isCrisis d line shift) SHIFTS)
    PRODUCTION_LINES sn

/-- `generate_prod_orders`. -/
def generate_prod_orders (w : World) (s : RState) : List ProdOrder × RState :=
  let r := stFold (ordersDay w) daysList (s, 1000000)
  (r.1, r.2.1)

/-! ## Material document generator (`generate_material_documents`) -/

structure MaterialDocument where
  MAT_DOC_ID : String
  POSTING_DATE : ℕ
  SKU : String
  MVMT_TYPE : String
  STOCK_TYPE : String
  BATCH_ID : String
  PLANT_ID : String
  STORAGE_LOCATION : String
  QUANTITY : ℤ
  UNIT_OF_MEASURE : String
  CDC_OPERATION : String
  CDC_TIMESTAMP : ℕ
  CDC_SEQUENCE : ℤ
  CDC_SOURCE_SYSTEM : String
deriving DecidableEq

/-- One material movement.  `if is_crisis and random.random() < 0.3`
short-circuits: the draw happens only on crisis days, as in the
source. -/
def matDocRecord (w : World) (isCrisis : Bool) (d : ℕ)
    (sn : RState × ℕ) : MaterialDocument × (RState × ℕ) :=
  let prs := pyChoice w PRODUCTS ⟨"BP-100", "", ""⟩ sn.1
  let bts := pyRandint w 10000 99999 prs.2
  let stm :=
    if isCrisis then
      let rc := pyRandom w bts.2
      if rc.1 < 3 / 10 then (("QUALITY_INSPECTION", "321"), rc.2)
      else
        let ms := pyChoice w ["101", "261", "601"] "101" rc.2
        (("UNRESTRICTED", ms.1), ms.2)
    else
      let ms := pyChoice w ["101", "261", "601"] "101" bts.2
      (("UNRESTRICTED", ms.1), ms.2)
  let hs := pyRandint w 0 23 stm.2
  let mins := pyRandint w 0 59 hs.2
  let postingTime := d * secondsPerDay + hs.1.toNat * 3600 + mins.1.toNat * 60
  let sls := pyChoice w ["SL01", "SL02", "SL03"] "SL01" mins.2
  let qs := pyRandint w 10 500 sls.2
  ({ MAT_DOC_ID := toString sn.2
     POSTING_DATE := d
     SKU := prs.1.sku
     MVMT_TYPE := stm.1.2
     STOCK_TYPE := stm.1.1
     BATCH_ID := "BATCH_" ++ toString bts.1
     PLANT_ID := "P001"
     STORAGE_LOCATION := sls.1
     QUANTITY := qs.1
     UNIT_OF_MEASURE := "EA"
     CDC_OPERATION := "INSERT"
     CDC_TIMESTAMP := postingTime
     CDC_SEQUENCE := (sn.2 : ℤ)
     CDC_SOURCE_SYSTEM := "SAP_ERP" }, (qs.2, sn.2 + 1))

/-- One day of material movements: `randint(50, 100)` of them. -/
def matDocsDay (w : World) (d : ℕ) (sn : RState × ℕ) :
    List MaterialDocument × (RState × ℕ) :=
  let isCrisis := is_crisis_period (d * secondsPerDay)
  let ns := pyRandint w 50 100 sn.1
  stMap (fun _ => matDocRecord w isCrisis d) (List.range ns.1.toNat) (ns.2, sn.2)

/-- `generate_material_documents`. -/
def generate_material_documents (w : World) (s : RState) :
    List MaterialDocument × RState :=
  let r := stFold (matDocsDay w) daysList (s, 5000000)
  (r.1, r.2.1)

/-! ## OPE daily fact generator (`generate_ope_daily_fact`) -/

structure OpeDailyFact where
  METRIC_DATE : ℕ
  PRODUCTION_LINE_ID : String
  SHIFT_ID : String
  OEE_AVAILABILITY_PCT : ℚ
  OEE_PERFORMANCE_PCT : ℚ
  OEE_QUALITY_PCT : ℚ
  OEE_PCT : ℚ
  OPE_VALUE_ADDED_TIME_PCT : ℚ
  OPE_MATERIAL_EFFICIENCY_PCT : ℚ
  OPE_FLOW_EFFICIENCY_PCT : ℚ
  OPE_PCT : ℚ
  PLANNED_QUANTITY : ℤ
  ACTUAL_QUANTITY : ℤ
  SCRAP_QUANTITY : ℤ
  YIELD_PCT : ℚ
  PLANNED_PRODUCTION_TIME_MIN : ℤ
  ACTUAL_PRODUCTION_TIME_MIN : ℤ
  DOWNTIME_MIN : ℤ
  STARVATION_DOWNTIME_MIN : ℤ
  BLOCKAGE_DOWNTIME_MIN : ℤ
  BREAKDOWN_DOWNTIME_MIN : ℤ
  CHANGEOVER_MIN : ℤ
  AVG_CYCLE_TIME_SEC : ℚ
  THEORETICAL_CYCLE_TIME_SEC : ℚ
  AVG_HUMIDITY : ℚ
  AVG_DUST_PM25 : ℚ
  AVG_TEMPERATURE : ℚ
  AGV_FAILURE_COUNT : ℤ
  AGV_ERR_99_COUNT : ℤ
deriving DecidableEq

/-- The regime branch of one OPE row (source lines 503-532): value-added
pct, material efficiency, flow efficiency, starvation minutes, AGV
failure count, AGV-ERR-99 count, humidity, dust.  In the normal branch
the ERR-99 count is `0 if random() > 0.05 else 1`. -/
def opeBranch (w : World) (isCrisis : Bool) (line : String) (s : RState) :
    (ℚ × ℚ × ℚ × ℤ × ℤ × ℤ × ℚ × ℚ) × RState :=
  if isCrisis ∧ line = "LINE_4" then
    let va := pyUniform w 55 65 s
    let me := pyUniform w 60 70 va.2
    let fe := pyUniform w 55 65 me.2
    let st := pyRandint w 60 120 fe.2
    let af := pyRandint w 15 30 st.2
    let e99 := pyRandint w 10 25 af.2
    let hu := pyUniform w 22 28 e99.2
    let du := pyUniform w 30 40 hu.2
    ((va.1, me.1, fe.1, st.1, af.1, e99.1, hu.1, du.1), du.2)
  else if isCrisis then
    let va := pyUniform w 70 80 s
    let me := pyUniform w 75 85 va.2
    let fe := pyUniform w 70 80 me.2
    let st := pyRandint w 20 45 fe.2
    let af := pyRandint w 5 15 st.2
    let e99 := pyRandint w 3 10 af.2
    let hu := pyUniform w 24 30 e99.2
    let du := pyUniform w 25 35 hu.2
    ((va.1, me.1, fe.1, st.1, af.1, e99.1, hu.1, du.1), du.2)
  else
    let va := pyUniform w 82 90 s
    let me := pyUniform w 88 95 va.2
    let fe := pyUniform w 85 92 me.2
    let st := pyRandint w 0 15 fe.2
    let af := pyRandint w 0 2 st.2
    let rc := pyRandom w af.2
    let e99 : ℤ := if rc.1 > 1 / 20 then 0 else 1
    let hu := pyUniform w 42 48 rc.2
    let du := pyUniform w 8 14 hu.2
    ((va.1, me.1, fe.1, st.1, af.1, e99, hu.1, du.1), du.2)

/-- One OPE daily fact row for day x line x shift. -/
def opeRecord (w : World) (isCrisis : Bool) (d : ℕ) (line shift : String)
    (s : RState) : OpeDailyFact × RState :=
  let av := pyUniform w 92 98 s
  let pf := pyUniform w 90 98 av.2
  let ql := pyUniform w 97 (199 / 2) pf.2
  let oee := av.1 * pf.1 * ql.1 / 10000
  let br := opeBranch w isCrisis line ql.2
  let valueAdded := br.1.1
  let matEff := br.1.2.1
  let flowEff := br.1.2.2.1
  let starvMin := br.1.2.2.2.1
  let agvFail := br.1.2.2.2.2.1
  let agvErr99 := br.1.2.2.2.2.2.1
  let humidity := br.1.2.2.2.2.2.2.1
  let dust := br.1.2.2.2.2.2.2.2
  let ope := valueAdded * matEff * flowEff / 10000
  let pq := pyRandint w 100 200 br.2
  let au := pyUniform w (19 / 20) (21 / 20) pq.2
  let actualQty := pyInt ((pq.1 : ℚ) * ope / 100 * au.1)
  let scrapQty := max 0 (pyInt ((actualQty : ℚ) * (100 - ql.1) / 100))
  let bl := pyRandint w 0 10 au.2
  let bd := pyRandint w 0 20 bl.2
  let co := pyRandint w 15 30 bd.2
  let cy := pyUniform w 45 60 co.2
  let tp := pyUniform w 21 23 cy.2
  ({ METRIC_DATE := d
     PRODUCTION_LINE_ID := line
     SHIFT_ID := shift
     OEE_AVAILABILITY_PCT := pyRound 2 av.1
     OEE_PERFORMANCE_PCT := pyRound 2 pf.1
     OEE_QUALITY_PCT := pyRound 2 ql.1
     OEE_PCT := pyRound 2 (oee * 100)
     OPE_VALUE_ADDED_TIME_PCT := pyRound 2 valueAdded
     OPE_MATERIAL_EFFICIENCY_PCT := pyRound 2 matEff
     OPE_FLOW_EFFICIENCY_PCT := pyRound 2 flowEff
     OPE_PCT := pyRound 2 (ope * 100)
     PLANNED_QUANTITY := pq.1
     ACTUAL_QUANTITY := actualQty
     SCRAP_QUANTITY := scrapQty
     YIELD_PCT := pyRound 2 ql.1
     PLANNED_PRODUCTION_TIME_MIN := 480
     ACTUAL_PRODUCTION_TIME_MIN := pyInt (480 * av.1 / 100)
     DOWNTIME_MIN := pyInt (480 * (100 - av.1) / 100)
     STARVATION_DOWNTIME_MIN := starvMin
     BLOCKAGE_DOWNTIME_MIN := bl.1
     BREAKDOWN_DOWNTIME_MIN := bd.1
     CHANGEOVER_MIN := co.1
     AVG_CYCLE_TIME_SEC := cy.1
     THEORETICAL_CYCLE_TIME_SEC := 45
     AVG_HUMIDITY := pyRound 2 humidity
     AVG_DUST_PM25 := pyRound 3 dust
     AVG_TEMPERATURE := pyRound 2 tp.1
     AGV_FAILURE_COUNT := agvFail
     AGV_ERR_99_COUNT := agvErr99 }, tp.2)

/-- One day of OPE facts: every line x shift, crisis evaluated at
midnight. -/
def opeDay (w : World) (d : ℕ) (s : RState) : List OpeDailyFact × RState :=
  let isCrisis := is_crisis_period (d * secondsPerDay)
  stFold (fun line => stMap (fun shift => opeRecord w isCrisis d line shift) SHIFTS)
    PRODUCTION_LINES s

/-- `generate_ope_daily_fact`. -/
def generate_ope_daily_fact (w : World) (s : RState) : List OpeDailyFact × RState :=
  stFold (opeDay w) daysList s

/-! ## Hourly AGV failure analysis generator
(`generate_agv_failure_analysis`) -/

structure FailureAnalysis where
  ANALYSIS_DATE : ℕ
  ANALYSIS_HOUR : ℕ
  SHIFT_ID : String
  ZONE_ID : String
  AVG_HUMIDITY : ℚ
  MIN_HUMIDITY : ℚ
  MAX_HUMIDITY : ℚ
  AVG_DUST_PM25 : ℚ
  MAX_DUST_PM25 : ℚ
  AVG_TEMPERATURE : ℚ
  HUMIDITY_CATEGORY : String
  DUST_CATEGORY : String
  TOTAL_AGV_OPERATIONS : ℤ
  SUCCESSFUL_OPERATIONS : ℤ
  FAILED_OPERATIONS : ℤ
  FAILURE_RATE : ℚ
  TOTAL_ERRORS : ℤ
  AGV_ERR_99_COUNT : ℤ
  AGV_ERR_01_COUNT : ℤ
  AGV_ERR_42_COUNT : ℤ
  AGV_ERR_55_COUNT : ℤ
  OTHER_ERROR_COUNT : ℤ
  IS_HIGH_FAILURE_PERIOD : Bool
  FAILURE_PROBABILITY : ℚ
  STARVATION_EVENTS_CAUSED : ℤ
  STARVATION_DURATION_MIN : ℤ
deriving DecidableEq

/-- The environment draw of one failure-analysis row (source lines
600-611): in the crisis branch the dust is computed from the clamped
humidity of the same row (`(50 - humidity) + normal(5, 3)`), in the
baseline branch it is an independent normal draw. -/
def faEnv (w : World) (isCrisis : Bool) (s : RState) : (ℚ × ℚ) × RState :=
  if isCrisis then
    let hz := npNormal w 25 3 s
    let humidity := max 15 (min 40 hz.1)
    let dz := npNormal w 5 3 hz.2
    let dust := max 5 (min 50 ((50 - humidity) + dz.1))
    ((humidity, dust), dz.2)
  else
    let hz := npNormal w 45 5 s
    let humidity := max 30 (min 60 hz.1)
    let dz := npNormal w 10 2 hz.2
    let dust := max 2 (min 20 dz.1)
    ((humidity, dust), dz.2)

/-- The humidity bucket of the source (`< 35` low, `> 55` high). -/
def humidityCategory (humidity : ℚ) : String :=
  if humidity < 35 then "LOW" else if humidity > 55 then "HIGH" else "NORMAL"

/-- The dust bucket of the source (`> 25` high, `> 15` moderate). -/
def dustCategory (dust : ℚ) : String :=
  if dust > 25 then "HIGH" else if dust > 15 then "MODERATE" else "LOW"

/-- The dust-dependent failure-rate draw (source lines 632-639). -/
def faFailureRate (w : World) (dust : ℚ) (s : RState) : ℚ × RState :=
  if dust > 30 then pyUniform w (1 / 10) (1 / 5) s
  else if dust > 25 then pyUniform w (1 / 20) (1 / 10) s
  else if dust > 20 then pyUniform w (1 / 50) (1 / 20) s
  else pyUniform w (1 / 1000) (1 / 100) s

/-- One failure-analysis row for day x hour x zone.  The crisis flag is
per event hour here (unlike the day-level generators). -/
def faRecord (w : World) (d hour : ℕ) (zone : String) (s : RState) :
    FailureAnalysis × RState :=
  let isCrisis := is_crisis_period (d * secondsPerDay + hour * 3600)
  let env := faEnv w isCrisis s
  let humidity := env.1.1
  let dust := env.1.2
  let tos := pyRandint w 80 150 env.2
  let frs := faFailureRate w dust tos.2
  let failedOps := pyInt ((tos.1 : ℚ) * frs.1)
  let successfulOps := tos.1 - failedOps
  let totalErrors := failedOps
  let err99 := if isCrisis then pyInt ((totalErrors : ℚ) * (7 / 10))
    else pyInt ((totalErrors : ℚ) * (2 / 10))
  let err01 := if isCrisis then pyInt ((totalErrors : ℚ) * (1 / 10))
    else pyInt ((totalErrors : ℚ) * (3 / 10))
  let err42 := if isCrisis then pyInt ((totalErrors : ℚ) * (1 / 10))
    else pyInt ((totalErrors : ℚ) * (3 / 10))
  let err55 := if isCrisis then pyInt ((totalErrors : ℚ) * (1 / 20))
    else pyInt ((totalErrors : ℚ) * (1 / 10))
  let otherErrors := totalErrors - err99 - err01 - err42 - err55
  let sds := pyRandint w 10 20 frs.2
  let starvationDuration := err99 * sds.1
  let mns := pyUniform w 2 5 sds.2
  let mxs := pyUniform w 2 5 mns.2
  let mds := pyUniform w 3 8 mxs.2
  let tps := npNormal w 22 1 mds.2
  ({ ANALYSIS_DATE := d
     ANALYSIS_HOUR := hour
     SHIFT_ID := get_shift_for_hour (hour : ℤ)
     ZONE_ID := zone
     AVG_HUMIDITY := pyRound 3 humidity
     MIN_HUMIDITY := pyRound 3 (humidity - mns.1)
     MAX_HUMIDITY := pyRound 3 (humidity + mxs.1)
     AVG_DUST_PM25 := pyRound 3 dust
     MAX_DUST_PM25 := pyRound 3 (dust + mds.1)
     AVG_TEMPERATURE := pyRound 3 tps.1
     HUMIDITY_CATEGORY := humidityCategory humidity
     DUST_CATEGORY := dustCategory dust
     TOTAL_AGV_OPERATIONS := tos.1
     SUCCESSFUL_OPERATIONS := successfulOps
     FAILED_OPERATIONS := failedOps
     FAILURE_RATE := pyRound 6 frs.1
     TOTAL_ERRORS := totalErrors
     AGV_ERR_99_COUNT := err99
     AGV_ERR_01_COUNT := err01
     AGV_ERR_42_COUNT := err42
     AGV_ERR_55_COUNT := err55
     OTHER_ERROR_COUNT := max 0 otherErrors
     IS_HIGH_FAILURE_PERIOD := decide (frs.1 > 1 / 20)
     FAILURE_PROBABILITY := pyRound 6 frs.1
     STARVATION_EVENTS_CAUSED := err99
     STARVATION_DURATION_MIN := starvationDuration }, tps.2)

/-- One day of failure analysis: every hour 0..23 x zone. -/
def faDay (w : World) (d : ℕ) (s : RState) : List FailureAnalysis × RState :=
  stFold (fun hour => stMap (fun zone => faRecord w d hour zone) ZONES)
    (List.range 24) s

/-- `generate_agv_failure_analysis`. -/
def generate_agv_failure_analysis (w : World) (s : RState) :
    List FailureAnalysis × RState :=
  stFold (faDay w) daysList s

/-! ## Dimension generators (`generate_dim_asset`, `generate_dim_product`)

`dim_asset` rows come in two shapes (line rows carry
`PRODUCTION_LINE_ID` and `ERP_WORK_CENTER`, AGV rows carry
`IOT_DEVICE_ID`); pandas unions the keys, leaving nulls where a key is
absent, so the asymmetric fields are `Option` here. -/

structure AssetRow where
  ASSET_ID : ℤ
  ASSET_CODE : String
  ASSET_NAME : String
  ASSET_DESCRIPTION : String
  ASSET_TYPE : String
  ASSET_CLASS : String
  ASSET_STATUS : String
  PRODUCTION_LINE_ID : Option String
  ZONE_ID : String
  MANUFACTURER : String
  MODEL_NUMBER : String
  MES_ASSET_ID : String
  ERP_WORK_CENTER : Option String
  IOT_DEVICE_ID : Option String
deriving DecidableEq

/-- One production-line asset row.  `ZONE_ID` is
`'ZONE_' + chr(64 + int(line[-1]))` — note line 5 gets `ZONE_E`, outside
the `ZONES` constant, exactly as in the source. -/
def assetLineRecord (line : String) (sn : RState × ℕ) : AssetRow × (RState × ℕ) :=
  let digit := line.back.toNat - 48
  ({ ASSET_ID := (sn.2 : ℤ)
     ASSET_CODE := line
     ASSET_NAME := "Production Line " ++ String.singleton line.back
     ASSET_DESCRIPTION := "Battery pack assembly line " ++ String.singleton line.back
     ASSET_TYPE := "PRODUCTION_LINE"
     ASSET_CLASS := "ASSEMBLY"
     ASSET_STATUS := "ACTIVE"
     PRODUCTION_LINE_ID := some line
     ZONE_ID := "ZONE_" ++ String.singleton (Char.ofNat (64 + digit))
     MANUFACTURER := "Siemens"
     MODEL_NUMBER := "SIMATIC-5000"
     MES_ASSET_ID := line ++ "_MAIN"
     ERP_WORK_CENTER := some ("WC_" ++ line)
     IOT_DEVICE_ID := none }, (sn.1, sn.2 + 1))

/-- One AGV asset row (its zone is a seeded `random.choice`). -/
def assetAgvRecord (w : World) (agv : String) (sn : RState × ℕ) :
    AssetRow × (RState × ℕ) :=
  let zs := pyChoice w ZONES "ZONE_A" sn.1
  ({ ASSET_ID := (sn.2 : ℤ)
     ASSET_CODE := agv
     ASSET_NAME := "Automated Guided Vehicle " ++ agv.drop (agv.length - 3)
     ASSET_DESCRIPTION := "Material transport AGV with LiDAR navigation"
     ASSET_TYPE := "AGV"
     ASSET_CLASS := "TRANSPORT"
     ASSET_STATUS := "ACTIVE"
     PRODUCTION_LINE_ID := none
     ZONE_ID := zs.1
     MANUFACTURER := "KUKA"
     MODEL_NUMBER := "KMR-iiwa"
     MES_ASSET_ID := agv
     ERP_WORK_CENTER := none
     IOT_DEVICE_ID := some ("IOT_" ++ agv) }, (zs.2, sn.2 + 1))

/-- `generate_dim_asset`: 5 line rows then 20 AGV rows, with a running
asset-id counter starting at 1. -/
def generate_dim_asset (w : World) (s : RState) : List AssetRow × RState :=
  let lr := stMap assetLineRecord PRODUCTION_LINES (s, 1)
  let ar := stMap (assetAgvRecord w) AGVS lr.2
  (lr.1 ++ ar.1, ar.2.1)

structure ProductRow where
  PRODUCT_ID : ℤ
  SKU : String
  PRODUCT_NAME : String
  PRODUCT_DESCRIPTION : String
  PRODUCT_CATEGORY : String
  PRODUCT_FAMILY : String
  PRODUCT_LINE : String
  UNIT_OF_MEASURE : String
  STANDARD_COST : ℚ
  STANDARD_CYCLE_TIME_SEC : ℤ
deriving DecidableEq

/-- One product dimension row, for `enumerate(PRODUCTS, 1)`. -/
def productRecord (w : World) (ip : ℕ × Product) (s : RState) :
    ProductRow × RState :=
  let cs := pyUniform w 100 5000 s
  let cy := pyRandint w 30 120 cs.2
  ({ PRODUCT_ID := (ip.1 : ℤ) + 1
     SKU := ip.2.sku
     PRODUCT_NAME := ip.2.name
     PRODUCT_DESCRIPTION :=
       "High-performance " ++ ip.2.name.toLower ++ " for electric vehicles"
     PRODUCT_CATEGORY := ip.2.category
     PRODUCT_FAMILY := "EV_BATTERY"
     PRODUCT_LINE := "VOLTSTREAM"
     UNIT_OF_MEASURE := "EA"
     STANDARD_COST := cs.1
     STANDARD_CYCLE_TIME_SEC := cy.1 }, cy.2)

/-- `generate_dim_product`. -/
def generate_dim_product (w : World) (s : RState) : List ProductRow × RState :=
  stMap (productRecord w) PRODUCTS.enum s

/-! ## DataFrames

`pd.DataFrame(records)` is modelled as a column-name list plus rows of
optional cells (`none` is NaN/None).  Timestamps and dates keep their
numeric form; the ISO strings of the CSV are an order-preserving
bijective rendering of them. -/

inductive Cell where
  | str : String → Cell
  | rat : ℚ → Cell
  | int : ℤ → Cell
  | bool : Bool → Cell
deriving DecidableEq

structure Df where
  cols : List String
  rows : List (List (Option Cell))
deriving DecidableEq

/-- Shorthand cell constructors for the row mappers. -/
def cS (x : String) : Option Cell := some (Cell.str x)

def cQ (x : ℚ) : Option Cell := some (Cell.rat x)

def cZ (x : ℤ) : Option Cell := some (Cell.int x)

def cN (x : ℕ) : Option Cell := some (Cell.int (x : ℤ))

def cB (x : Bool) : Option Cell := some (Cell.bool x)

def cOS (x : Option String) : Option Cell := x.map Cell.str

def cON (x : Option ℕ) : Option Cell := x.map fun n => Cell.int (n : ℤ)

def envCols : List String :=
  ["READING_ID", "SENSOR_ID", "SENSOR_TYPE", "ZONE_ID", "PRODUCTION_LINE_ID",
   "READING_TIMESTAMP", "METRIC_NAME", "METRIC_VALUE", "UNIT_OF_MEASURE",
   "QUALITY_FLAG"]

def envRow (r : EnvReading) : List (Option Cell) :=
  [cS r.READING_ID, cS r.SENSOR_ID, cS r.SENSOR_TYPE, cS r.ZONE_ID,
   cS r.PRODUCTION_LINE_ID, cN r.READING_TIMESTAMP, cS r.METRIC_NAME,
   cQ r.METRIC_VALUE, cS r.UNIT_OF_MEASURE, cS r.QUALITY_FLAG]

def agvCols : List String :=
  ["MSG_ID", "AGV_ID", "EVENT_TIMESTAMP", "X_COORD", "Y_COORD", "Z_COORD",
   "ZONE_ID", "ROUTE_SEGMENT", "VELOCITY", "BATTERY_LEVEL", "PAYLOAD_ID",
   "ERROR_CODE", "ERROR_SEVERITY", "ERROR_MESSAGE", "_CDC_OPERATION",
   "_CDC_TIMESTAMP", "_CDC_SEQUENCE", "_CDC_SOURCE_SYSTEM"]

def agvRow (r : AgvTelemetry) : List (Option Cell) :=
  [cS r.MSG_ID, cS r.AGV_ID, cN r.EVENT_TIMESTAMP, cQ r.X_COORD, cQ r.Y_COORD,
   cQ r.Z_COORD, cS r.ZONE_ID, cS r.ROUTE_SEGMENT, cQ r.VELOCITY,
   cQ r.BATTERY_LEVEL, cOS r.PAYLOAD_ID, cOS r.ERROR_CODE, cOS r.ERROR_SEVERITY,
   cOS r.ERROR_MESSAGE, cS r.CDC_OPERATION, cN r.CDC_TIMESTAMP,
   cZ r.CDC_SEQUENCE, cS r.CDC_SOURCE_SYSTEM]

def equipCols : List String :=
  ["EVENT_ID", "ASSET_ID", "PRODUCTION_LINE_ID", "EVENT_TIMESTAMP", "STATE_CODE",
   "STATE_NAME", "REASON_CODE", "REASON_DESCRIPTION", "DURATION_SECONDS",
   "SHIFT_ID", "OPERATOR_ID", "_CDC_OPERATION", "_CDC_TIMESTAMP",
   "_CDC_SEQUENCE", "_CDC_SOURCE_SYSTEM"]

def equipRow (r : EquipmentState) : List (Option Cell) :=
  [cS r.EVENT_ID, cS r.ASSET_ID, cS r.PRODUCTION_LINE_ID, cN r.EVENT_TIMESTAMP,
   cZ r.STATE_CODE, cS r.STATE_NAME, cOS r.REASON_CODE, cOS r.REASON_DESCRIPTION,
   cZ r.DURATION_SECONDS, cS r.SHIFT_ID, cS r.OPERATOR_ID, cS r.CDC_OPERATION,
   cN r.CDC_TIMESTAMP, cZ r.CDC_SEQUENCE, cS r.CDC_SOURCE_SYSTEM]

def ordersCols : List String :=
  ["ORDER_ID", "ORDER_TYPE", "SKU", "TARGET_QTY", "UNIT_OF_MEASURE",
   "SCHED_START", "SCHED_END", "ACTUAL_START", "ACTUAL_END",
   "PRODUCTION_LINE_ID", "WORK_CENTER_ID", "ORDER_STATUS", "PRIORITY",
   "_CDC_OPERATION", "_CDC_TIMESTAMP", "_CDC_SEQUENCE", "_CDC_SOURCE_SYSTEM"]

def ordersRow (r : ProdOrder) : List (Option Cell) :=
  [cS r.ORDER_ID, cS r.ORDER_TYPE, cS r.SKU, cZ r.TARGET_QTY,
   cS r.UNIT_OF_MEASURE, cN r.SCHED_START, cN r.SCHED_END, cN r.ACTUAL_START,
   cON r.ACTUAL_END, cS r.PRODUCTION_LINE_ID, cS r.WORK_CENTER_ID,
   cS r.ORDER_STATUS, cZ r.PRIORITY, cS r.CDC_OPERATION, cN r.CDC_TIMESTAMP,
   cZ r.CDC_SEQUENCE, cS r.CDC_SOURCE_SYSTEM]

def matDocsCols : List String :=
  ["MAT_DOC_ID", "POSTING_DATE", "SKU", "MVMT_TYPE", "STOCK_TYPE", "BATCH_ID",
   "PLANT_ID", "STORAGE_LOCATION", "QUANTITY", "UNIT_OF_MEASURE",
   "_CDC_OPERATION", "_CDC_TIMESTAMP", "_CDC_SEQUENCE", "_CDC_SOURCE_SYSTEM"]

def matDocsRow (r : MaterialDocument) : List (Option Cell) :=
  [cS r.MAT_DOC_ID, cN r.POSTING_DATE, cS r.SKU, cS r.MVMT_TYPE,
   cS r.STOCK_TYPE, cS r.BATCH_ID, cS r.PLANT_ID, cS r.STORAGE_LOCATION,
   cZ r.QUANTITY, cS r.UNIT_OF_MEASURE, cS r.CDC_OPERATION, cN r.CDC_TIMESTAMP,
   cZ r.CDC_SEQUENCE, cS r.CDC_SOURCE_SYSTEM]

def opeCols : List String :=
  ["METRIC_DATE", "PRODUCTION_LINE_ID", "SHIFT_ID", "OEE_AVAILABILITY_PCT",
   "OEE_PERFORMANCE_PCT", "OEE_QUALITY_PCT", "OEE_PCT",
   "OPE_VALUE_ADDED_TIME_PCT", "OPE_MATERIAL_EFFICIENCY_PCT",
   "OPE_FLOW_EFFICIENCY_PCT", "OPE_PCT", "PLANNED_QUANTITY", "ACTUAL_QUANTITY",
   "SCRAP_QUANTITY", "YIELD_PCT", "PLANNED_PRODUCTION_TIME_MIN",
   "ACTUAL_PRODUCTION_TIME_MIN", "DOWNTIME_MIN", "STARVATION_DOWNTIME_MIN",
   "BLOCKAGE_DOWNTIME_MIN", "BREAKDOWN_DOWNTIME_MIN", "CHANGEOVER_MIN",
   "AVG_CYCLE_TIME_SEC", "THEORETICAL_CYCLE_TIME_SEC", "AVG_HUMIDITY",
   "AVG_DUST_PM25", "AVG_TEMPERATURE", "AGV_FAILURE_COUNT", "AGV_ERR_99_COUNT"]

def opeRow (r : OpeDailyFact) : List (Option Cell) :=
  [cN r.METRIC_DATE, cS r.PRODUCTION_LINE_ID, cS r.SHIFT_ID,
   cQ r.OEE_AVAILABILITY_PCT, cQ r.OEE_PERFORMANCE_PCT, cQ r.OEE_QUALITY_PCT,
   cQ r.OEE_PCT, cQ r.OPE_VALUE_ADDED_TIME_PCT, cQ r.OPE_MATERIAL_EFFICIENCY_PCT,
   cQ r.OPE_FLOW_EFFICIENCY_PCT, cQ r.OPE_PCT, cZ r.PLANNED_QUANTITY,
   cZ r.ACTUAL_QUANTITY, cZ r.SCRAP_QUANTITY, cQ r.YIELD_PCT,
   cZ r.PLANNED_PRODUCTION_TIME_MIN, cZ r.ACTUAL_PRODUCTION_TIME_MIN,
   cZ r.DOWNTIME_MIN, cZ r.STARVATION_DOWNTIME_MIN, cZ r.BLOCKAGE_DOWNTIME_MIN,
   cZ r.BREAKDOWN_DOWNTIME_MIN, cZ r.CHANGEOVER_MIN, cQ r.AVG_CYCLE_TIME_SEC,
   cQ r.THEORETICAL_CYCLE_TIME_SEC, cQ r.AVG_HUMIDITY, cQ r.AVG_DUST_PM25,
   cQ r.AVG_TEMPERATURE, cZ r.AGV_FAILURE_COUNT, cZ r.AGV_ERR_99_COUNT]

def faCols : List String :=
  ["ANALYSIS_DATE", "ANALYSIS_HOUR", "SHIFT_ID", "ZONE_ID", "AVG_HUMIDITY",
   "MIN_HUMIDITY", "MAX_HUMIDITY", "AVG_DUST_PM25", "MAX_DUST_PM25",
   "AVG_TEMPERATURE", "HUMIDITY_CATEGORY", "DUST_CATEGORY",
   "TOTAL_AGV_OPERATIONS", "SUCCESSFUL_OPERATIONS", "FAILED_OPERATIONS",
   "FAILURE_RATE", "TOTAL_ERRORS", "AGV_ERR_99_COUNT", "AGV_ERR_01_COUNT",
   "AGV_ERR_42_COUNT", "AGV_ERR_55_COUNT", "OTHER_ERROR_COUNT",
   "IS_HIGH_FAILURE_PERIOD", "FAILURE_PROBABILITY", "STARVATION_EVENTS_CAUSED",
   "STARVATION_DURATION_MIN"]

def faRow (r : FailureAnalysis) : List (Option Cell) :=
  [cN r.ANALYSIS_DATE, cN r.ANALYSIS_HOUR, cS r.SHIFT_ID, cS r.ZONE_ID,
   cQ r.AVG_HUMIDITY, cQ r.MIN_HUMIDITY, cQ r.MAX_HUMIDITY, cQ r.AVG_DUST_PM25,
   cQ r.MAX_DUST_PM25, cQ r.AVG_TEMPERATURE, cS r.HUMIDITY_CATEGORY,
   cS r.DUST_CATEGORY, cZ r.TOTAL_AGV_OPERATIONS, cZ r.SUCCESSFUL_OPERATIONS,
   cZ r.FAILED_OPERATIONS, cQ r.FAILURE_RATE, cZ r.TOTAL_ERRORS,
   cZ r.AGV_ERR_99_COUNT, cZ r.AGV_ERR_01_COUNT, cZ r.AGV_ERR_42_COUNT,
   cZ r.AGV_ERR_55_COUNT, cZ r.OTHER_ERROR_COUNT, cB r.IS_HIGH_FAILURE_PERIOD,
   cQ r.FAILURE_PROBABILITY, cZ r.STARVATION_EVENTS_CAUSED,
   cZ r.STARVATION_DURATION_MIN]

def assetCols : List String :=
  ["ASSET_ID", "ASSET_CODE", "ASSET_NAME", "ASSET_DESCRIPTION", "ASSET_TYPE",
   "ASSET_CLASS", "ASSET_STATUS", "PRODUCTION_LINE_ID", "ZONE_ID",
   "MANUFACTURER", "MODEL_NUMBER", "MES_ASSET_ID", "ERP_WORK_CENTER",
   "IOT_DEVICE_ID"]

def assetRowCells (r : AssetRow) : List (Option Cell) :=
  [cZ r.ASSET_ID, cS r.ASSET_CODE, cS r.ASSET_NAME, cS r.ASSET_DESCRIPTION,
   cS r.ASSET_TYPE, cS r.ASSET_CLASS, cS r.ASSET_STATUS,
   cOS r.PRODUCTION_LINE_ID, cS r.ZONE_ID, cS r.MANUFACTURER,
   cS r.MODEL_NUMBER, cS r.MES_ASSET_ID, cOS r.ERP_WORK_CENTER,
   cOS r.IOT_DEVICE_ID]

def productCols : List String :=
  ["PRODUCT_ID", "SKU", "PRODUCT_NAME", "PRODUCT_DESCRIPTION",
   "PRODUCT_CATEGORY", "PRODUCT_FAMILY", "PRODUCT_LINE", "UNIT_OF_MEASURE",
   "STANDARD_COST", "STANDARD_CYCLE_TIME_SEC"]

def productRowCells (r : ProductRow) : List (Option Cell) :=
  [cZ r.PRODUCT_ID, cS r.SKU, cS r.PRODUCT_NAME, cS r.PRODUCT_DESCRIPTION,
   cS r.PRODUCT_CATEGORY, cS r.PRODUCT_FAMILY, cS r.PRODUCT_LINE,
   cS r.UNIT_OF_MEASURE, cQ r.STANDARD_COST, cZ r.STANDARD_CYCLE_TIME_SEC]

/-! ## Dataset registry (`DATASETS`) and runner -/

/-- One registry entry: output filename, generator, description and
expected minimum row count. -/
structure DatasetConfig where
  filename : String
  generator : World → RState → Df × RState
  description : String
  expected_min_rows : ℕ

def envSensorsDf (w : World) (s : RState) : Df × RState :=
  let r := generate_env_sensor_data w START_DATE END_DATE s
  (⟨envCols, r.1.map envRow⟩, r.2)

def agvTelemetryDf (w : World) (s : RState) : Df × RState :=
  let r := generate_agv_telemetry w s
  (⟨agvCols, r.1.map agvRow⟩, r.2)

def equipmentStatesDf (w : World) (s : RState) : Df × RState :=
  let r := generate_equipment_states w s
  (⟨equipCols, r.1.map equipRow⟩, r.2)

def prodOrdersDf (w : World) (s : RState) : Df × RState :=
  let r := generate_prod_orders w s
  (⟨ordersCols, r.1.map ordersRow⟩, r.2)

def materialDocumentsDf (w : World) (s : RState) : Df × RState :=
  let r := generate_material_documents w s
  (⟨matDocsCols, r.1.map matDocsRow⟩, r.2)

def opeDailyFactDf (w : World) (s : RState) : Df × RState :=
  let r := generate_ope_daily_fact w s
  (⟨opeCols, r.1.map opeRow⟩, r.2)

def agvFailureAnalysisDf (w : World) (s : RState) : Df × RState :=
  let r := generate_agv_failure_analysis w s
  (⟨faCols, r.1.map faRow⟩, r.2)

def dimAssetDf (w : World) (s : RState) : Df × RState :=
  let r := generate_dim_asset w s
  (⟨assetCols, r.1.map assetRowCells⟩, r.2)

def dimProductDf (w : World) (s : RState) : Df × RState :=
  let r := generate_dim_product w s
  (⟨productCols, r.1.map productRowCells⟩, r.2)

/-- The `DATASETS` registry, in source order. -/
def DATASETS : List (String × DatasetConfig) :=
  [("env_sensors",
    ⟨"env_sensors.csv", envSensorsDf,
     "Environmental sensor readings (humidity, dust, temperature)", 1500000⟩),
   ("agv_telemetry",
    ⟨"agv_telemetry.csv", agvTelemetryDf,
     "AGV telemetry with error codes", 2600000⟩),
   ("equipment_states",
    ⟨"equipment_states.csv", equipmentStatesDf,
     "Equipment state transitions", 10000⟩),
   ("prod_orders",
    ⟨"prod_orders.csv", prodOrdersDf,
     "Production orders from SAP", 1000⟩),
   ("material_documents",
    ⟨"material_documents.csv", materialDocumentsDf,
     "Material movements from SAP", 5000⟩),
   ("ope_daily_fact",
    ⟨"ope_daily_fact.csv", opeDailyFactDf,
     "Pre-aggregated OPE daily metrics", 1000⟩),
   ("agv_failure_analysis",
    ⟨"agv_failure_analysis.csv", agvFailureAnalysisDf,
     "Hourly AGV failure analysis for ML", 8000⟩),
   ("dim_asset",
    ⟨"dim_asset.csv", dimAssetDf, "Asset dimension table", 20⟩),
   ("dim_product",
    ⟨"dim_product.csv", dimProductDf, "Product dimension table", 5⟩)]

/-- The violated checks of `validate_dataframe`, kept structured (the
source renders them as strings). -/
inductive ValidationError where
  | rowCountBelow (n expectedMin : ℕ)
  | emptyDataFrame
  | nullColumns (cols : List String)
  | duplicateColumns
deriving DecidableEq

/-- Whether column `i` of `df` is entirely null (`df[col].isna().all()`;
true for an empty frame, as in pandas). -/
def isNullColumn (df : Df) (i : ℕ) : Bool :=
  df.rows.all fun r => (r.getD i none).isNone

/-- The all-null columns of `df`, in column order. -/
def nullColumnNames (df : Df) : List String :=
  (df.cols.enum.filter fun ic => isNullColumn df ic.1).map fun ic => ic.2

/-- `validate_dataframe`: accumulates every violated check; an empty
frame returns early (after the row-count check), as in the source. -/
def validate_dataframe (df : Df) (expectedMinRows : ℕ) :
    Bool × List ValidationError :=
  let rowErrs :=
    if df.rows.length < expectedMinRows then
      [ValidationError.rowCountBelow df.rows.length expectedMinRows]
    else []
  if df.rows.length = 0 then (false, rowErrs ++ [ValidationError.emptyDataFrame])
  else
    let nullErrs :=
      if (nullColumnNames df).isEmpty then []
      else [ValidationError.nullColumns (nullColumnNames df)]
    let dupErrs :=
      if df.cols.length ≠ df.cols.dedup.length then
        [ValidationError.duplicateColumns]
      else []
    let errors := rowErrs ++ nullErrs ++ dupErrs
    (errors.isEmpty, errors)

/-- `random.seed(RANDOM_SEED); np.random.seed(RANDOM_SEED)`: both module
states are reset; the uuid entropy cursor cannot be. -/
def reseedState (s : RState) : RState :=
  { pySeed := RANDOM_SEED, pyPos := 0, npSeed := RANDOM_SEED, npPos := 0,
    uuidPos := s.uuidPos }

/-- Outcome of `generate_single_dataset`: success flag, the file write
that happened (path and content; `none` when nothing was written) and
the validation errors reported. -/
structure RunOutcome where
  success : Bool
  written : Option (String × Df)
  reported : List ValidationError
  state : RState
deriving DecidableEq

/-- `generate_single_dataset`: look the dataset up, reseed both random
modules to the fixed seed, generate, validate, and only on a fully valid
result write the CSV.  An unknown name fails with no work done; a
validation failure discards the frame and writes nothing. -/
def generate_single_dataset (w : World) (datasetName outputDir : String)
    (s : RState) : RunOutcome :=
  match DATASETS.lookup datasetName with
  | none => { success := false, written := none, reported := [], state := s }
  | some config =>
    let s1 := reseedState s
    let dfs := config.generator w s1
    let vr := validate_dataframe dfs.1 config.expected_min_rows
    if vr.1 then
      { success := true
        written := some (outputDir ++ "/" ++ config.filename, dfs.1)
        reported := []
        state := dfs.2 }
    else
      { success := false, written := none, reported := vr.2, state := dfs.2 }

/-! ## Cross-dataset validator (`validate_joins`)

The directory is a partial map from dataset name to the loaded frame
(CSV parsing round-trips the cells; an unreadable file is out of the
embedding's scope).  Errors and warnings are kept structured; the
source renders them as strings with a bounded orphan sample, which is a
function of the structured value. -/

/-- Target of a join check: a constant reference list or another
dataset's column. -/
inductive JoinTarget where
  | const : List String → JoinTarget
  | dataset : String → JoinTarget

/-- The `join_checks` table of the source:
(source dataset, source column, target, target column, description). -/
def JOIN_CHECKS : List (String × String × JoinTarget × Option String × String) :=
  [("prod_orders", "SKU", JoinTarget.dataset "dim_product", some "SKU",
    "Production orders -> Products"),
   ("material_documents", "SKU", JoinTarget.dataset "dim_product", some "SKU",
    "Material documents -> Products"),
   ("prod_orders", "PRODUCTION_LINE_ID", JoinTarget.const PRODUCTION_LINES, none,
    "Production orders -> Production lines"),
   ("equipment_states", "PRODUCTION_LINE_ID", JoinTarget.const PRODUCTION_LINES,
    none, "Equipment states -> Production lines"),
   ("ope_daily_fact", "PRODUCTION_LINE_ID", JoinTarget.const PRODUCTION_LINES,
    none, "OPE daily fact -> Production lines"),
   ("env_sensors", "PRODUCTION_LINE_ID", JoinTarget.const PRODUCTION_LINES, none,
    "Env sensors -> Production lines"),
   ("env_sensors", "ZONE_ID", JoinTarget.const ZONES, none,
    "Env sensors -> Zones"),
   ("agv_telemetry", "ZONE_ID", JoinTarget.const ZONES, none,
    "AGV telemetry -> Zones"),
   ("agv_failure_analysis", "ZONE_ID", JoinTarget.const ZONES, none,
    "AGV failure analysis -> Zones"),
   ("ope_daily_fact", "SHIFT_ID", JoinTarget.const SHIFTS, none,
    "OPE daily fact -> Shifts"),
   ("equipment_states", "SHIFT_ID", JoinTarget.const SHIFTS, none,
    "Equipment states -> Shifts"),
   ("agv_failure_analysis", "SHIFT_ID", JoinTarget.const SHIFTS, none,
    "AGV failure analysis -> Shifts"),
   ("agv_telemetry", "AGV_ID", JoinTarget.dataset "dim_asset", some "ASSET_CODE",
    "AGV telemetry -> Assets")]

inductive JoinError where
  | sourceColumnMissing (description sourceCol sourceDs : String)
  | targetColumnMissing (description targetCol targetDs : String)
  | orphanedValues (description sourceDs sourceCol : String)
      (orphans : List Cell)
deriving DecidableEq

inductive JoinWarning where
  | skippedSourceNotLoaded (description : String)
  | skippedTargetNotLoaded (description : String)
  | err99NotElevated
  | opeNotLower
  | dimAssetCount (n expected : ℕ)
  | dimProductCount (n expected : ℕ)
deriving DecidableEq

/-- The non-null values of a named column, in row order
(`df[col].dropna()`); empty when the column does not exist (the source
guards every access on existence). -/
def columnValues (df : Df) (c : String) : List Cell :=
  match df.cols.findIdx? (· == c) with
  | none => []
  | some i => df.rows.filterMap fun r => r.getD i none

/-- Whether `df` has a column named `c`. -/
def hasColumn (df : Df) (c : String) : Bool :=
  (df.cols.findIdx? (· == c)).isSome

/-- One referential check of `validate_joins` (source lines 950-994):
skipped source/target give a warning, a missing column an error, and a
non-empty set difference source minus target an orphaned-values error;
otherwise the check passes (third component counts passes). -/
def runJoinCheck (datasets : List (String × Df))
    (check : String × String × JoinTarget × Option String × String) :
    List JoinError × List JoinWarning × ℕ :=
  let sourceDs := check.1
  let sourceCol := check.2.1
  let target := check.2.2.1
  let targetCol := check.2.2.2.1
  let description := check.2.2.2.2
  match datasets.lookup sourceDs with
  | none => ([], [JoinWarning.skippedSourceNotLoaded description], 0)
  | some sourceDf =>
    if ¬ hasColumn sourceDf sourceCol then
      ([JoinError.sourceColumnMissing description sourceCol sourceDs], [], 0)
    else
      let sourceValues := (columnValues sourceDf sourceCol).dedup
      match target with
      | JoinTarget.const l =>
        let targetValues := l.map Cell.str
        let orphaned := sourceValues.filter fun v => decide (v ∉ targetValues)
        if orphaned.isEmpty then ([], [], 1)
        else ([JoinError.orphanedValues description sourceDs sourceCol orphaned],
          [], 0)
      | JoinTarget.dataset targetDs =>
        match datasets.lookup targetDs with
        | none => ([], [JoinWarning.skippedTargetNotLoaded description], 0)
        | some targetDf =>
          let tCol := targetCol.getD ""
          if ¬ hasColumn targetDf tCol then
            ([JoinError.targetColumnMissing description tCol targetDs], [], 0)
          else
            let targetValues := (columnValues targetDf tCol).dedup
            let orphaned := sourceValues.filter fun v => decide (v ∉ targetValues)
            if orphaned.isEmpty then ([], [], 1)
            else
              ([JoinError.orphanedValues description sourceDs sourceCol orphaned],
                [], 0)

/-- A cell as a number, for the statistic checks. -/
def cellToQ : Cell → Option ℚ
  | Cell.rat q => some q
  | Cell.int n => some (n : ℚ)
  | _ => none

/-- Mean of a list of rationals; the source's pandas mean of an empty
selection is NaN, whose comparisons are false — that corner affects
only which warnings appear, never the validator's result. -/
def meanQ (l : List ℚ) : ℚ := l.sum / (l.length : ℚ)

/-- Values of column `valCol` over the rows whose `METRIC_DATE`-style
day (column `dateCol`) lies in `[lo, hi]` (`inside = true`) or outside
it (`inside = false`).  `between('2024-12-09', '2024-12-11')` on the ISO
strings is exactly this day-index interval. -/
def maskedValues (df : Df) (dateCol valCol : String) (lo hi : ℤ)
    (inside : Bool) : List ℚ :=
  match df.cols.findIdx? (· == dateCol), df.cols.findIdx? (· == valCol) with
  | some di, some vi =>
    df.rows.filterMap fun r =>
      match (r.getD di none).bind cellToQ with
      | some d =>
        if (decide ((lo : ℚ) ≤ d ∧ d ≤ (hi : ℚ))) = inside then
          (r.getD vi none).bind cellToQ
        else none
      | none => none
  | _, _ => []

/-- Whether `df` has any row in the crisis-day interval
(`crisis_mask.any()`). -/
def hasCrisisRows (df : Df) : Bool :=
  ¬ (maskedValues df "METRIC_DATE" "METRIC_DATE" 69 71 true).isEmpty

/-- The two narrative checks of `validate_joins` (warnings only). -/
def narrativeChecks (datasets : List (String × Df)) : List JoinWarning × ℕ :=
  match datasets.lookup "ope_daily_fact" with
  | none => ([], 0)
  | some df =>
    if hasCrisisRows df then
      let crisisErr :=
        meanQ (maskedValues df "METRIC_DATE" "AGV_ERR_99_COUNT" 69 71 true)
      let normalErr :=
        meanQ (maskedValues df "METRIC_DATE" "AGV_ERR_99_COUNT" 69 71 false)
      let w1 := if crisisErr > normalErr * 2 then ([], 1)
        else ([JoinWarning.err99NotElevated], 0)
      let crisisOpe :=
        meanQ (maskedValues df "METRIC_DATE" "OPE_PCT" 69 71 true)
      let normalOpe :=
        meanQ (maskedValues df "METRIC_DATE" "OPE_PCT" 69 71 false)
      let w2 := if crisisOpe < normalOpe * (9 / 10) then ([], 1)
        else ([JoinWarning.opeNotLower], 0)
      (w1.1 ++ w2.1, w1.2 + w2.2)
    else ([], 0)

/-- The two dimension-cardinality checks of `validate_joins`
(warnings only). -/
def cardinalityChecks (datasets : List (String × Df)) : List JoinWarning × ℕ :=
  let a := match datasets.lookup "dim_asset" with
    | none => (([] : List JoinWarning), 0)
    | some df =>
      let expected := PRODUCTION_LINES.length + AGVS.length
      if df.rows.length = expected then ([], 1)
      else ([JoinWarning.dimAssetCount df.rows.length expected], 0)
  let p := match datasets.lookup "dim_product" with
    | none => (([] : List JoinWarning), 0)
    | some df =>
      if df.rows.length = PRODUCTS.length then ([], 1)
      else ([JoinWarning.dimProductCount df.rows.length PRODUCTS.length], 0)
  (a.1 ++ p.1, a.2 + p.2)

/-- Report of `validate_joins`. -/
structure JoinReport where
  missing : List String
  errors : List JoinError
  warnings : List JoinWarning
  checksPassed : ℕ
  result : Bool

/-- `validate_joins`: load whatever the directory has (in registry
order), return `false` outright when nothing loaded, then run every
referential check, the narrative checks and the cardinality checks;
the result is `errors == []`. -/
def validate_joins (dir : String → Option Df) : JoinReport :=
  let datasets := DATASETS.filterMap fun nc => (dir nc.1).map fun df => (nc.1, df)
  let missing := (DATASETS.filter fun nc => (dir nc.1).isNone).map fun nc => nc.1
  if datasets.isEmpty then
    { missing := missing, errors := [], warnings := [], checksPassed := 0,
      result := false }
  else
    let jc := (JOIN_CHECKS.map (runJoinCheck datasets)).foldr
      (fun r acc => (r.1 ++ acc.1, r.2.1 ++ acc.2.1, r.2.2 + acc.2.2)) ([], [], 0)
    let nar := narrativeChecks datasets
    let card := cardinalityChecks datasets
    { missing := missing
      errors := jc.1
      warnings := jc.2.1 ++ nar.1 ++ card.1
      checksPassed := jc.2.2 + nar.2 + card.2
      result := jc.1.isEmpty }

/-! ## Derived notions used by the verification -/

/-- States whose `random` and `np.random` parts agree (they may differ
in the uuid entropy cursor). -/
def Agree4 (s₁ s₂ : RState) : Prop :=
  s₁.pySeed = s₂.pySeed ∧ s₁.pyPos = s₂.pyPos ∧
    s₁.npSeed = s₂.npSeed ∧ s₁.npPos = s₂.npPos

/-- Replace only the uuid entropy cursor of a state. -/
def setUuid (s : RState) (u : ℕ) : RState := { s with uuidPos := u }

/-- `setUuid` lifted to the state-with-counter threading of the
order/material-document generators. -/
def setUuidN (sn : RState × ℕ) (u : ℕ) : RState × ℕ := (setUuid sn.1 u, sn.2)

/-- The datasets whose generators never call `generate_uuid`. -/
def UUID_FREE_DATASETS : List String :=
  ["prod_orders", "material_documents", "ope_daily_fact",
   "agv_failure_analysis", "dim_asset", "dim_product"]

/-- The accounting invariants of one hourly failure-analysis row. -/
def faAccountingOk (r : FailureAnalysis) : Bool :=
  decide (r.SUCCESSFUL_OPERATIONS + r.FAILED_OPERATIONS = r.TOTAL_AGV_OPERATIONS ∧
    r.TOTAL_ERRORS = r.FAILED_OPERATIONS ∧
    r.AGV_ERR_99_COUNT + r.AGV_ERR_01_COUNT + r.AGV_ERR_42_COUNT +
      r.AGV_ERR_55_COUNT + r.OTHER_ERROR_COUNT = r.TOTAL_ERRORS ∧
    0 ≤ r.SUCCESSFUL_OPERATIONS ∧ 0 ≤ r.FAILED_OPERATIONS ∧
    0 ≤ r.TOTAL_AGV_OPERATIONS ∧ 0 ≤ r.TOTAL_ERRORS ∧
    0 ≤ r.AGV_ERR_99_COUNT ∧ 0 ≤ r.AGV_ERR_01_COUNT ∧
    0 ≤ r.AGV_ERR_42_COUNT ∧ 0 ≤ r.AGV_ERR_55_COUNT ∧
    0 ≤ r.OTHER_ERROR_COUNT)

/-- The physical bounds of the clamped environmental values: humidity
within `[15, 60]` (union of the crisis and baseline clamp ranges), dust
within `[2, 50]`. -/
def envBoundsOk (r : EnvReading) : Bool :=
  decide ((r.SENSOR_TYPE = "HUMIDITY" →
      15 ≤ r.METRIC_VALUE ∧ r.METRIC_VALUE ≤ 60) ∧
    (r.SENSOR_TYPE = "PM25" → 2 ≤ r.METRIC_VALUE ∧ r.METRIC_VALUE ≤ 50))

/-- Timestamp range checks per table (claim C2). -/
def envTsOk (r : EnvReading) : Bool :=
  decide (START_DATE ≤ r.READING_TIMESTAMP ∧ r.READING_TIMESTAMP ≤ END_DATE)

def agvTsOk (r : AgvTelemetry) : Bool :=
  decide (START_DATE ≤ r.EVENT_TIMESTAMP ∧ r.EVENT_TIMESTAMP ≤ END_DATE ∧
    r.CDC_TIMESTAMP = r.EVENT_TIMESTAMP)

def equipTsOk (r : EquipmentState) : Bool :=
  decide (START_DATE ≤ r.EVENT_TIMESTAMP ∧
    r.EVENT_TIMESTAMP ≤ END_DATE + 23 * 3600 ∧
    r.CDC_TIMESTAMP = r.EVENT_TIMESTAMP)

def orderTsOk (r : ProdOrder) : Bool :=
  decide (START_DATE ≤ r.SCHED_START ∧
    r.SCHED_START ≤ END_DATE + 22 * 3600 ∧
    r.SCHED_END = r.SCHED_START + 8 * 3600 ∧
    r.ACTUAL_START = r.SCHED_START ∧
    (r.ACTUAL_END = none ∨ r.ACTUAL_END = some r.SCHED_END))

def matDocTsOk (r : MaterialDocument) : Bool :=
  decide (r.POSTING_DATE ≤ END_DATE / secondsPerDay ∧
    r.CDC_TIMESTAMP ≤ END_DATE + 23 * 3600 + 59 * 60)

def opeDateOk (r : OpeDailyFact) : Bool :=
  decide (r.METRIC_DATE ≤ END_DATE / secondsPerDay)

def faDateOk (r : FailureAnalysis) : Bool :=
  decide (r.ANALYSIS_DATE ≤ END_DATE / secondsPerDay ∧ r.ANALYSIS_HOUR ≤ 23)

/-- The key of one environmental record:
(tick, zone, line, sensor type). -/
def envKey (r : EnvReading) : ℕ × String × String × String :=
  (r.READING_TIMESTAMP, r.ZONE_ID, r.PRODUCTION_LINE_ID, r.SENSOR_TYPE)

/-- The zone x line x sensor-type combinations of one tick. -/
def envComboInner : List (String × String × String) :=
  ZONES.flatMap fun z =>
    PRODUCTION_LINES.flatMap fun l => SENSOR_TYPES.map fun st => (z, l, st)

/-- All tick x zone x line x sensor-type combinations of a date
range. -/
def envCombos (startT stopT : ℕ) : List (ℕ × String × String × String) :=
  (ticksFrom startT 300 stopT).flatMap fun t => envComboInner.map fun p => (t, p)

/-- Whether a join error is an orphaned-values finding. -/
def isOrphanError : JoinError → Bool
  | JoinError.orphanedValues _ _ _ _ => true
  | _ => false

/-- Well-formedness of the loaded frames with respect to the declared
join checks: wherever a check's source (and, for dataset targets, its
target) is loaded, the named column exists.  The generator's own output
always satisfies this. -/
def checkColumnsOk (datasets : List (String × Df))
    (check : String × String × JoinTarget × Option String × String) : Bool :=
  match datasets.lookup check.1 with
  | none => true
  | some sourceDf =>
    hasColumn sourceDf check.2.1 &&
      match check.2.2.1 with
      | JoinTarget.const _ => true
      | JoinTarget.dataset targetDs =>
        match datasets.lookup targetDs with
        | none => true
        | some targetDf => hasColumn targetDf ((check.2.2.2.1).getD "")

/-! ## Concrete worlds, states and directories for the witnesses and
counterexamples -/

/-- A world whose raw stream values are all zero and whose uuid entropy
stream enumerates the naturals. -/
def zeroWorld : World :=
  ⟨fun _ _ => 0, fun _ _ => 0, fun i => toString i⟩

/-- A world whose normal draws are all `-100` (modelling an extreme but
possible tail draw of the standard normal). -/
def coldWorld : World :=
  ⟨fun _ _ => 0, fun _ _ => -100, fun i => toString i⟩

/-- Like `zeroWorld` but the very first `np.random` draw is `1` instead
of `0`: only the first humidity draw differs. -/
def bumpWorld : World :=
  ⟨fun _ _ => 0, fun _ i => if i = 0 then 1 else 0, fun i => toString i⟩

/-- Like `zeroWorld` but the tenth `random` draw of a seeding (index 9)
is `1/2` instead of `0`: within the first OPE row, whose draws are
availability, performance, quality, value-added, material-efficiency,
flow-efficiency, starvation, failures, the err-99 coin, then humidity
and dust, only the humidity uniform differs. -/
def pyBumpWorld : World :=
  ⟨fun _ i => if i = 9 then 1 / 2 else 0, fun _ _ => 0, fun i => toString i⟩

/-- The process state right after module import (both modules seeded
with `RANDOM_SEED`, no draws yet, no uuids consumed). -/
def state0 : RState := ⟨RANDOM_SEED, 0, RANDOM_SEED, 0, 0⟩

/-- Same seeds, but one uuid has already been consumed by earlier
generation work. -/
def shiftedState : RState := ⟨RANDOM_SEED, 0, RANDOM_SEED, 0, 1⟩

/-- A directory with no readable dataset at all. -/
def emptyDir : String → Option Df := fun _ => none

/-- A one-row product frame with the registry's columns. -/
def tinyProductDf : Df :=
  ⟨productCols,
   [[cZ 1, cS "BP-100", cS "Battery Pack 100kWh", cS "d", cS "BATTERY_PACK",
     cS "EV_BATTERY", cS "VOLTSTREAM", cS "EA", cQ 100, cZ 30]]⟩

/-- A directory holding only the product dimension. -/
def oneProductDir : String → Option Df :=
  fun n => if n = "dim_product" then some tinyProductDf else none

/-! ## Generic lemmas about the loop combinators -/

theorem stMap_length {α β σ : Type} (f : α → σ → β × σ) (l : List α) (s : σ) :
    ((stMap f l s).1).length = l.length := by
  induction l generalizing s with
  | nil => simp [stMap]
  | cons a l ih => simp [stMap, ih]

theorem stFold_length {α β σ : Type} (f : α → σ → List β × σ) (k : ℕ)
    (hf : ∀ a s, ((f a s).1).length = k) (l : List α) (s : σ) :
    ((stFold f l s).1).length = k * l.length := by
  induction l generalizing s with
  | nil => simp [stFold]
  | cons a l ih =>
    simp only [stFold, List.length_append, List.length_cons, hf, ih]
    ring

theorem stMap_all {α β σ : Type} (f : α → σ → β × σ) (p : β → Bool)
    (hf : ∀ a s, p (f a s).1 = true) (l : List α) (s : σ) :
    ((stMap f l s).1).all p = true := by
  induction l generalizing s with
  | nil => simp [stMap]
  | cons a l ih => simp [stMap, hf, ih]

theorem stFold_all {α β σ : Type} (f : α → σ → List β × σ) (p : β → Bool)
    (hf : ∀ a s, ((f a s).1).all p = true) (l : List α) (s : σ) :
    ((stFold f l s).1).all p = true := by
  induction l generalizing s with
  | nil => simp [stFold]
  | cons a l ih => simp [stFold, List.all_append, hf, ih]

theorem stMap_all_mem {α β σ : Type} (f : α → σ → β × σ) (p : β → Bool)
    (l : List α) (hf : ∀ a ∈ l, ∀ s, p (f a s).1 = true) :
    ∀ s : σ, ((stMap f l s).1).all p = true := by
  induction l with
  | nil => intro s; simp [stMap]
  | cons a l ih =>
    intro s
    simp only [stMap, List.all_cons, Bool.and_eq_true]
    exact ⟨hf a (List.mem_cons_self a l) s,
      ih (fun x hx s' => hf x (List.mem_cons_of_mem a hx) s') _⟩

theorem stFold_all_mem {α β σ : Type} (f : α → σ → List β × σ) (p : β → Bool)
    (l : List α) (hf : ∀ a ∈ l, ∀ s, ((f a s).1).all p = true) :
    ∀ s : σ, ((stFold f l s).1).all p = true := by
  induction l with
  | nil => intro s; simp [stFold]
  | cons a l ih =>
    intro s
    simp only [stFold, List.all_append, Bool.and_eq_true]
    exact ⟨hf a (List.mem_cons_self a l) s,
      ih (fun x hx s' => hf x (List.mem_cons_of_mem a hx) s') _⟩

theorem stMap_ne_nil {α β σ : Type} (f : α → σ → β × σ) (l : List α)
    (hl : l ≠ []) (s : σ) : (stMap f l s).1 ≠ [] := by
  cases l with
  | nil => exact absurd rfl hl
  | cons a l => simp [stMap]

theorem stFold_ne_nil {α β σ : Type} (f : α → σ → List β × σ) (l : List α)
    (hl : l ≠ []) (hf : ∀ a s, (f a s).1 ≠ []) (s : σ) :
    (stFold f l s).1 ≠ [] := by
  cases l with
  | nil => exact absurd rfl hl
  | cons a l => simp [stFold, hf a s]

theorem stMap_map {α β γ σ : Type} (f : α → σ → β × σ) (k : β → γ) (g : α → γ)
    (hf : ∀ a s, k (f a s).1 = g a) (l : List α) (s : σ) :
    ((stMap f l s).1).map k = l.map g := by
  induction l generalizing s with
  | nil => simp [stMap]
  | cons a l ih => simp [stMap, hf, ih]

theorem stFold_flatMap {α β γ σ : Type} (f : α → σ → List β × σ) (k : β → γ)
    (g : α → List γ) (hf : ∀ a s, ((f a s).1).map k = g a) (l : List α) (s : σ) :
    ((stFold f l s).1).map k = l.flatMap g := by
  induction l generalizing s with
  | nil => simp [stFold]
  | cons a l ih => simp [stFold, hf, ih]

theorem stFold_exists {α β σ : Type} (f : α → σ → List β × σ) (p : β → Prop)
    (a : α) (hf : ∀ s, ∃ b ∈ (f a s).1, p b) (l : List α) (ha : a ∈ l) (s : σ) :
    ∃ b ∈ (stFold f l s).1, p b := by
  induction l generalizing s with
  | nil => cases ha
  | cons x l ih =>
    rcases List.mem_cons.1 ha with h | h
    · subst h
      obtain ⟨b, hb, hpb⟩ := hf s
      exact ⟨b, by simp [stFold, hb], hpb⟩
    · obtain ⟨b, hb, hpb⟩ := ih h (f x s).2
      exact ⟨b, by simp [stFold, hb], hpb⟩

theorem stMap_exists {α β σ : Type} (f : α → σ → β × σ) (p : β → Prop)
    (a : α) (hf : ∀ s, p (f a s).1) (l : List α) (ha : a ∈ l) (s : σ) :
    ∃ b ∈ (stMap f l s).1, p b := by
  induction l generalizing s with
  | nil => cases ha
  | cons x l ih =>
    rcases List.mem_cons.1 ha with h | h
    · subst h
      exact ⟨(f a s).1, by simp [stMap], hf s⟩
    · obtain ⟨b, hb, hpb⟩ := ih h (f x s).2
      exact ⟨b, by simp [stMap, hb], hpb⟩

theorem ticksFrom_mem_start {start stride stop : ℕ} (h : start ≤ stop) :
    start ∈ ticksFrom start stride stop := by
  unfold ticksFrom
  rw [if_pos h]
  exact List.mem_map.2 ⟨0, List.mem_range.2 (Nat.succ_pos _), by simp⟩

/-- Bounds of the source's clamp idiom `max lo (min hi x)`. -/
theorem clamp_bounds (lo hi x : ℚ) (h : lo ≤ hi) :
    lo ≤ max lo (min hi x) ∧ max lo (min hi x) ≤ hi :=
  ⟨le_max_left _ _, max_le h (min_le_left _ _)⟩

theorem stMap_update {α β σ : Type} (f : α → σ → β × σ) (up : σ → ℕ → σ)
    (hf : ∀ a s u, f a (up s u) = ((f a s).1, up (f a s).2 u)) (l : List α) :
    ∀ s u, stMap f l (up s u) = ((stMap f l s).1, up (stMap f l s).2 u) := by
  induction l with
  | nil => intro s u; simp [stMap]
  | cons a l ih => intro s u; simp [stMap, hf, ih]

theorem stFold_update {α β σ : Type} (f : α → σ → List β × σ) (up : σ → ℕ → σ)
    (hf : ∀ a s u, f a (up s u) = ((f a s).1, up (f a s).2 u)) (l : List α) :
    ∀ s u, stFold f l (up s u) = ((stFold f l s).1, up (stFold f l s).2 u) := by
  induction l with
  | nil => intro s u; simp [stFold]
  | cons a l ih => intro s u; simp [stFold, hf, ih]

/-! ## Bounds of the primitive draws -/

theorem pyRandom_nonneg (w : World) (s : RState) : 0 ≤ (pyRandom w s).1 :=
  Int.fract_nonneg _

theorem pyRandom_lt_one (w : World) (s : RState) : (pyRandom w s).1 < 1 :=
  Int.fract_lt_one _

theorem pyUniform_bounds (w : World) {a b : ℚ} (h : a ≤ b) (s : RState) :
    a ≤ (pyUniform w a b s).1 ∧ (pyUniform w a b s).1 ≤ b := by
  have h0 := pyRandom_nonneg w s
  have h1 := pyRandom_lt_one w s
  simp only [pyUniform]
  constructor
  · nlinarith
  · nlinarith

theorem pyRandint_bounds (w : World) {a b : ℤ} (h : a ≤ b) (s : RState) :
    a ≤ (pyRandint w a b s).1 ∧ (pyRandint w a b s).1 ≤ b := by
  have h0 := pyRandom_nonneg w s
  have h1 := pyRandom_lt_one w s
  have hab : (a : ℚ) ≤ b := by exact_mod_cast h
  have hfl : (0 : ℤ) ≤ ⌊(pyRandom w s).1 * ((b : ℚ) - a + 1)⌋ := by
    apply Int.floor_nonneg.2
    nlinarith
  have hlt : ⌊(pyRandom w s).1 * ((b : ℚ) - a + 1)⌋ < b - a + 1 := by
    apply Int.floor_lt.2
    push_cast
    nlinarith
  simp only [pyRandint]
  omega

theorem pyInt_eq_floor {x : ℚ} (h : 0 ≤ x) : pyInt x = ⌊x⌋ := by
  simp [pyInt, h]

theorem pyInt_nonneg {x : ℚ} (h : 0 ≤ x) : 0 ≤ pyInt x := by
  rw [pyInt_eq_floor h]
  exact Int.floor_nonneg.2 h

theorem pyInt_le {x : ℚ} {n : ℤ} (h0 : 0 ≤ x) (h : x ≤ (n : ℚ)) : pyInt x ≤ n := by
  rw [pyInt_eq_floor h0]
  exact (Int.floor_mono h).trans_eq (Int.floor_intCast n)

theorem pyRound_bounds (p : ℕ) {x : ℚ} {a b : ℤ} (ha : (a : ℚ) ≤ x)
    (hb : x ≤ (b : ℚ)) : (a : ℚ) ≤ pyRound p x ∧ pyRound p x ≤ (b : ℚ) := by
  have hp : (0 : ℚ) < 10 ^ p := by positivity
  have hlo : a * 10 ^ p ≤ ⌊x * 10 ^ p + 1 / 2⌋ := by
    apply Int.le_floor.2
    push_cast
    nlinarith
  have hhi : ⌊x * 10 ^ p + 1 / 2⌋ ≤ b * 10 ^ p := by
    have : x * 10 ^ p + 1 / 2 < ((b * 10 ^ p + 1 : ℤ) : ℚ) := by
      push_cast
      nlinarith
    have := Int.floor_lt.2 this
    omega
  constructor
  · rw [pyRound, le_div_iff₀ hp]
    calc (a : ℚ) * 10 ^ p = ((a * 10 ^ p : ℤ) : ℚ) := by push_cast; ring
    _ ≤ (⌊x * 10 ^ p + 1 / 2⌋ : ℚ) := by exact_mod_cast hlo
  · rw [pyRound, div_le_iff₀ hp]
    calc (⌊x * 10 ^ p + 1 / 2⌋ : ℚ) ≤ ((b * 10 ^ p : ℤ) : ℚ) := by exact_mod_cast hhi
    _ = (b : ℚ) * 10 ^ p := by push_cast; ring

theorem ticksFrom_mem {start stride stop t : ℕ}
    (ht : t ∈ ticksFrom start stride stop) : start ≤ t ∧ t ≤ stop := by
  unfold ticksFrom at ht
  rcases List.mem_map.1 ht with ⟨k, hk, rfl⟩
  by_cases h : start ≤ stop
  · simp [h, List.mem_range] at hk
    have hk' : k ≤ (stop - start) / stride := by omega
    have h1 : stride * k ≤ stride * ((stop - start) / stride) :=
      Nat.mul_le_mul_left _ hk'
    have h2 : stride * ((stop - start) / stride) ≤ stop - start := by
      rw [Nat.mul_comm]
      exact Nat.div_mul_le_self _ _
    omega
  · simp [h] at hk

theorem ticksFrom_length {start stride stop : ℕ} (h : start ≤ stop) :
    (ticksFrom start stride stop).length = (stop - start) / stride + 1 := by
  simp [ticksFrom, h]

theorem ticksFrom_ne_nil {start stride stop : ℕ} (h : start ≤ stop) :
    ticksFrom start stride stop ≠ [] := by
  have := @ticksFrom_length start stride stop h
  intro hnil
  rw [hnil] at this
  simp at this

theorem ticksFrom_nodup {start stride stop : ℕ} (hs : 0 < stride) :
    (ticksFrom start stride stop).Nodup := by
  unfold ticksFrom
  apply List.Nodup.map _ (List.nodup_range _)
  intro i j hij
  have h2 : stride * i = stride * j := by simpa using hij
  exact Nat.eq_of_mul_eq_mul_left hs h2

/-! ## Claim C5: the shift partition -/

/-- C5: `shift_for_hour` partitions the 24-hour day into exactly three
contiguous 8-hour shifts — hours in `[6, 14)` map to SHIFT_1, hours in
`[14, 22)` map to SHIFT_2, and hours in `[22, 24)` together with
`[0, 6)` map to SHIFT_3 — so that every hour `0..23` maps to exactly one
shift (8 hours per shift, total coverage, no gaps or overlaps). -/
theorem c5_shift_partition (hour : ℤ) (h0 : 0 ≤ hour) (h24 : hour < 24) :
    ((6 ≤ hour ∧ hour < 14) ↔ get_shift_for_hour hour = "SHIFT_1") ∧
    ((14 ≤ hour ∧ hour < 22) ↔ get_shift_for_hour hour = "SHIFT_2") ∧
    ((hour < 6 ∨ 22 ≤ hour) ↔ get_shift_for_hour hour = "SHIFT_3") ∧
    get_shift_for_hour hour ∈ SHIFTS ∧
    (List.range 24).countP
      (fun n => get_shift_for_hour (n : ℤ) == "SHIFT_1") = 8 ∧
    (List.range 24).countP
      (fun n => get_shift_for_hour (n : ℤ) == "SHIFT_2") = 8 ∧
    (List.range 24).countP
      (fun n => get_shift_for_hour (n : ℤ) == "SHIFT_3") = 8 := by
  refine ⟨?_, ?_, ?_, ?_, by decide, by decide, by decide⟩
  · unfold get_shift_for_hour
    split_ifs with h1 h2
    · simp [h1]
    · constructor
      · intro hc; omega
      · intro hc; exact absurd hc (by decide)
    · constructor
      · intro hc; omega
      · intro hc; exact absurd hc (by decide)
  · unfold get_shift_for_hour
    split_ifs with h1 h2
    · constructor
      · intro hc; omega
      · intro hc; exact absurd hc (by decide)
    · simp [h2]
    · constructor
      · intro hc; omega
      · intro hc; exact absurd hc (by decide)
  · unfold get_shift_for_hour
    split_ifs with h1 h2
    · constructor
      · intro hc; omega
      · intro hc; exact absurd hc (by decide)
    · constructor
      · intro hc; omega
      · intro hc; exact absurd hc (by decide)
    · constructor
      · intro _; rfl
      · intro _; omega
  · unfold get_shift_for_hour
    split_ifs <;> simp [SHIFTS]

/-- Witness for C5: the partition property instantiated at hour 7. -/
theorem c5_shift_partition_witness :
    ((6 ≤ (7 : ℤ) ∧ (7 : ℤ) < 14) ↔ get_shift_for_hour 7 = "SHIFT_1") ∧
    ((14 ≤ (7 : ℤ) ∧ (7 : ℤ) < 22) ↔ get_shift_for_hour 7 = "SHIFT_2") ∧
    (((7 : ℤ) < 6 ∨ 22 ≤ (7 : ℤ)) ↔ get_shift_for_hour 7 = "SHIFT_3") ∧
    get_shift_for_hour 7 ∈ SHIFTS ∧
    (List.range 24).countP
      (fun n => get_shift_for_hour (n : ℤ) == "SHIFT_1") = 8 ∧
    (List.range 24).countP
      (fun n => get_shift_for_hour (n : ℤ) == "SHIFT_2") = 8 ∧
    (List.range 24).countP
      (fun n => get_shift_for_hour (n : ℤ) == "SHIFT_3") = 8 :=
  c5_shift_partition 7 (by norm_num) (by norm_num)

/-! ## Claim C6: out-of-range hours -/

/-- C6 counterexample: `get_shift_for_hour` does not fail fast on
out-of-range hours — it returns the perfectly normal shift value
SHIFT_3 both for 24 and for -1 (refuting the claim that out-of-range
hours are rejected rather than mapped to a normal shift). -/
theorem c6_counterexample :
    get_shift_for_hour 24 = "SHIFT_3" ∧ get_shift_for_hour (-1) = "SHIFT_3" ∧
    "SHIFT_3" ∈ SHIFTS := by
  refine ⟨by decide, by decide, by decide⟩

/-- C6 amended: the function is total and silently maps every
out-of-range integer hour to SHIFT_3 (the catch-all else branch); no
error is raised. -/
theorem c6_amended (hour : ℤ) (h : hour < 0 ∨ 24 ≤ hour) :
    get_shift_for_hour hour = "SHIFT_3" := by
  unfold get_shift_for_hour
  split_ifs with h1 h2
  · exact absurd h1 (by omega)
  · exact absurd h2 (by omega)
  · rfl

/-- Witness for the amended C6, at hour 24. -/
theorem c6_amended_witness : get_shift_for_hour 24 = "SHIFT_3" :=
  c6_amended 24 (by norm_num)

/-! ## Claim C10: accounting invariants of the failure-analysis table -/

theorem faFailureRate_bounds (w : World) (dust : ℚ) (s : RState) :
    0 ≤ (faFailureRate w dust s).1 ∧ (faFailureRate w dust s).1 ≤ 1 := by
  unfold faFailureRate
  split_ifs
  · obtain ⟨hl, hr⟩ := pyUniform_bounds w (by norm_num : (1:ℚ)/10 ≤ 1/5) s
    constructor <;> linarith
  · obtain ⟨hl, hr⟩ := pyUniform_bounds w (by norm_num : (1:ℚ)/20 ≤ 1/10) s
    constructor <;> linarith
  · obtain ⟨hl, hr⟩ := pyUniform_bounds w (by norm_num : (1:ℚ)/50 ≤ 1/20) s
    constructor <;> linarith
  · obtain ⟨hl, hr⟩ := pyUniform_bounds w (by norm_num : (1:ℚ)/1000 ≤ 1/100) s
    constructor <;> linarith

/-- Sums of truncated shares of a nonnegative error total stay within
the total when the share coefficients sum to at most one. -/
theorem errSplit_bounds (te : ℤ) (hte : 0 ≤ te) (c99 c01 c42 c55 : ℚ)
    (h99 : 0 ≤ c99) (h01 : 0 ≤ c01) (h42 : 0 ≤ c42) (h55 : 0 ≤ c55)
    (hsum : c99 + c01 + c42 + c55 ≤ 1) :
    0 ≤ pyInt ((te : ℚ) * c99) ∧ 0 ≤ pyInt ((te : ℚ) * c01) ∧
    0 ≤ pyInt ((te : ℚ) * c42) ∧ 0 ≤ pyInt ((te : ℚ) * c55) ∧
    pyInt ((te : ℚ) * c99) + pyInt ((te : ℚ) * c01) + pyInt ((te : ℚ) * c42) +
      pyInt ((te : ℚ) * c55) ≤ te := by
  have hteQ : (0 : ℚ) ≤ (te : ℚ) := by exact_mod_cast hte
  have n99 : (0 : ℚ) ≤ (te : ℚ) * c99 := by positivity
  have n01 : (0 : ℚ) ≤ (te : ℚ) * c01 := by positivity
  have n42 : (0 : ℚ) ≤ (te : ℚ) * c42 := by positivity
  have n55 : (0 : ℚ) ≤ (te : ℚ) * c55 := by positivity
  refine ⟨pyInt_nonneg n99, pyInt_nonneg n01, pyInt_nonneg n42, pyInt_nonneg n55, ?_⟩
  rw [pyInt_eq_floor n99, pyInt_eq_floor n01, pyInt_eq_floor n42, pyInt_eq_floor n55]
  have f99 := Int.floor_le ((te : ℚ) * c99)
  have f01 := Int.floor_le ((te : ℚ) * c01)
  have f42 := Int.floor_le ((te : ℚ) * c42)
  have f55 := Int.floor_le ((te : ℚ) * c55)
  have : ((⌊(te : ℚ) * c99⌋ + ⌊(te : ℚ) * c01⌋ + ⌊(te : ℚ) * c42⌋ +
      ⌊(te : ℚ) * c55⌋ : ℤ) : ℚ) ≤ (te : ℚ) := by
    push_cast
    nlinarith
  exact_mod_cast this

/-- Every failure-analysis row satisfies the accounting invariants. -/
theorem faRecord_accounting (w : World) (d hour : ℕ) (zone : String) (s : RState) :
    faAccountingOk (faRecord w d hour zone s).1 = true := by
  unfold faRecord faAccountingOk
  rw [decide_eq_true_eq]
  dsimp only
  obtain ⟨ht80, ht150⟩ := pyRandint_bounds w (by norm_num : (80:ℤ) ≤ 150)
    (faEnv w (is_crisis_period (d * secondsPerDay + hour * 3600)) s).2
  obtain ⟨hr0, hr1⟩ := faFailureRate_bounds w
    (faEnv w (is_crisis_period (d * secondsPerDay + hour * 3600)) s).1.2
    (pyRandint w 80 150
      (faEnv w (is_crisis_period (d * secondsPerDay + hour * 3600)) s).2).2
  set total := (pyRandint w 80 150
    (faEnv w (is_crisis_period (d * secondsPerDay + hour * 3600)) s).2).1 with htotal
  set rate := (faFailureRate w
    (faEnv w (is_crisis_period (d * secondsPerDay + hour * 3600)) s).1.2
    (pyRandint w 80 150
      (faEnv w (is_crisis_period (d * secondsPerDay + hour * 3600)) s).2).2).1
    with hrate
  have htQ : (0 : ℚ) ≤ (total : ℚ) := by
    have : (0 : ℤ) ≤ total := by omega
    exact_mod_cast this
  have hfn : (0 : ℚ) ≤ (total : ℚ) * rate := by positivity
  have hfail0 : 0 ≤ pyInt ((total : ℚ) * rate) := pyInt_nonneg hfn
  have hfailt : pyInt ((total : ℚ) * rate) ≤ total := by
    apply pyInt_le hfn
    nlinarith
  set failed := pyInt ((total : ℚ) * rate) with hfailed
  have hfe0 : (0 : ℤ) ≤ failed := hfail0
  split_ifs with hc
  · obtain ⟨e1, e2, e3, e4, e5⟩ := errSplit_bounds failed hfe0 (7/10) (1/10) (1/10)
      (1/20) (by norm_num) (by norm_num) (by norm_num) (by norm_num) (by norm_num)
    refine ⟨by ring, rfl, ?_, by omega, hfail0, by omega, hfail0, e1, e2, e3, e4, ?_⟩
    · rw [max_eq_right (by omega)]
      ring
    · rw [max_eq_right (by omega)]
      omega
  · obtain ⟨e1, e2, e3, e4, e5⟩ := errSplit_bounds failed hfe0 (2/10) (3/10) (3/10)
      (1/10) (by norm_num) (by norm_num) (by norm_num) (by norm_num) (by norm_num)
    refine ⟨by ring, rfl, ?_, by omega, hfail0, by omega, hfail0, e1, e2, e3, e4, ?_⟩
    · rw [max_eq_right (by omega)]
      ring
    · rw [max_eq_right (by omega)]
      omega

/-- Bounds of the clamped environmental draws: the humidity branches
clamp to `[15, 40]` (crisis) or `[30, 60]` (baseline), the PM25
branches to `[5, 50]` or `[2, 20]`. -/
theorem envValue_bounds (w : World) (isCrisis : Bool) (sensorType : String)
    (s : RState) :
    (sensorType = "HUMIDITY" →
      15 ≤ (envValue w isCrisis sensorType s).1.1 ∧
        (envValue w isCrisis sensorType s).1.1 ≤ 60) ∧
    (sensorType = "PM25" →
      2 ≤ (envValue w isCrisis sensorType s).1.1 ∧
        (envValue w isCrisis sensorType s).1.1 ≤ 50) := by
  simp only [envValue]
  split_ifs with h1 h2 h3 h4 <;> dsimp only
  · obtain ⟨hl, hr⟩ := clamp_bounds 15 40 (npNormal w 25 3 s).1 (by norm_num)
    exact ⟨fun _ => ⟨hl, hr.trans (by norm_num)⟩,
      fun he => absurd (h1.symm.trans he) (by decide)⟩
  · obtain ⟨hl, hr⟩ := clamp_bounds 30 60 (npNormal w 45 5 s).1 (by norm_num)
    exact ⟨fun _ => ⟨le_trans (by norm_num) hl, hr⟩,
      fun he => absurd (h1.symm.trans he) (by decide)⟩
  · obtain ⟨hl, hr⟩ :=
      clamp_bounds 5 50 (50 - 25 + (npNormal w 10 5 s).1) (by norm_num)
    exact ⟨fun he => absurd (h3.symm.trans he) (by decide),
      fun _ => ⟨le_trans (by norm_num) hl, hr⟩⟩
  · obtain ⟨hl, hr⟩ := clamp_bounds 2 20 (npNormal w 10 2 s).1 (by norm_num)
    exact ⟨fun he => absurd (h3.symm.trans he) (by decide),
      fun _ => ⟨hl, hr.trans (by norm_num)⟩⟩
  · exact ⟨fun he => absurd he h1, fun he => absurd he h3⟩

/-- Every environmental record's humidity/PM25 value stays in the
documented physical bounds, rounding included. -/
theorem envRecord_bounds (w : World) (isCrisis : Bool) (t : ℕ)
    (zone line sensorType : String) (s : RState) :
    envBoundsOk (envRecord w isCrisis t zone line sensorType s).1 = true := by
  unfold envRecord envBoundsOk
  rw [decide_eq_true_eq]
  dsimp only
  obtain ⟨hh, hp⟩ := envValue_bounds w isCrisis sensorType s
  constructor
  · intro hst
    obtain ⟨hl, hr⟩ := hh hst
    have := @pyRound_bounds 3 _ 15 60
      (by exact_mod_cast hl) (by exact_mod_cast hr)
    exact ⟨by exact_mod_cast this.1, by exact_mod_cast this.2⟩
  · intro hst
    obtain ⟨hl, hr⟩ := hp hst
    have := @pyRound_bounds 3 _ 2 50
      (by exact_mod_cast hl) (by exact_mod_cast hr)
    exact ⟨by exact_mod_cast this.1, by exact_mod_cast this.2⟩

/-- C4 amended: every environmental humidity and PM25 value is a
normal draw clamped to a fixed range (humidity within `[15, 60]`, dust
within `[2, 50]`), for every date range and random stream; the
TEMPERATURE values, by contrast, are unclamped (see the
counterexample). -/
theorem c4_amended (w : World) (startT stopT : ℕ) (s : RState) :
    ((generate_env_sensor_data w startT stopT s).1.all envBoundsOk) = true := by
  unfold generate_env_sensor_data
  apply stFold_all
  intro t st
  unfold envTick
  apply stFold_all
  intro zone sz
  apply stFold_all
  intro line sl
  apply stMap_all
  intro sensorType ss
  exact envRecord_bounds w _ t zone line sensorType ss

/-- C4 counterexample: the TEMPERATURE branch draws
`np.random.normal(22, 1.5)` with no clamp, so a possible (tail) stream
value of -100 puts a negative temperature in the generated table —
not every numeric sensor field is clamped to a realistic range. -/
theorem c4_counterexample :
    ∃ r ∈ (generate_env_sensor_data coldWorld START_DATE END_DATE state0).1,
      r.SENSOR_TYPE = "TEMPERATURE" ∧ r.METRIC_VALUE < 0 := by
  unfold generate_env_sensor_data
  refine stFold_exists _ _ START_DATE ?_ _ (ticksFrom_mem_start (by decide)) _
  intro s
  unfold envTick
  refine stFold_exists _ _ "ZONE_A" ?_ _ (by decide) _
  intro s1
  refine stFold_exists _ _ "LINE_1" ?_ _ (by decide) _
  intro s2
  refine stMap_exists _ _ "TEMPERATURE" ?_ _ (by decide) _
  intro s3
  refine ⟨rfl, ?_⟩
  show (envRecord coldWorld _ _ "ZONE_A" "LINE_1" "TEMPERATURE" s3).1.METRIC_VALUE < 0
  unfold envRecord
  dsimp only
  rw [envValue, if_neg (by decide), if_neg (by decide)]
  dsimp only
  simp only [npNormal, coldWorld]
  norm_num [pyRound]

/-! ## Claim C9: exhaustive cross-product of the environmental table -/

theorem envLine_length (w : World) (c : Bool) (t : ℕ) (zone line : String)
    (s : RState) :
    ((stMap (fun sensorType => envRecord w c t zone line sensorType)
      SENSOR_TYPES s).1).length = 3 := by
  rw [stMap_length]
  rfl

theorem envZone_length (w : World) (c : Bool) (t : ℕ) (zone : String)
    (s : RState) :
    ((stFold (fun line => stMap
        (fun sensorType => envRecord w c t zone line sensorType) SENSOR_TYPES)
      PRODUCTION_LINES s).1).length = 15 := by
  rw [stFold_length _ 3 (fun line s' => envLine_length w c t zone line s')
    PRODUCTION_LINES s]
  rfl

theorem envTick_length (w : World) (t : ℕ) (s : RState) :
    ((envTick w t s).1).length = 60 := by
  unfold envTick
  rw [stFold_length _ 15
    (fun zone s' => envZone_length w (is_crisis_period t) t zone s') ZONES s]
  rfl

/-- The environmental table has one record per tick x zone x line x
sensor type: its length is 60 per tick. -/
theorem env_length (w : World) (startT stopT : ℕ) (s : RState) :
    (generate_env_sensor_data w startT stopT s).1.length
      = 60 * (ticksFrom startT 300 stopT).length := by
  unfold generate_env_sensor_data
  exact stFold_length _ 60 (fun t s' => envTick_length w t s') _ s

/-- The key trace of the environmental table is exactly the nested
cross-product, in generation order. -/
theorem envSensors_map_key (w : World) (startT stopT : ℕ) (s : RState) :
    ((generate_env_sensor_data w startT stopT s).1).map envKey
      = envCombos startT stopT := by
  unfold generate_env_sensor_data envCombos
  apply stFold_flatMap
  intro t st
  unfold envTick
  have hshape : envComboInner.map (fun p => (t, p)) = ZONES.flatMap fun z =>
      PRODUCTION_LINES.flatMap fun l =>
        SENSOR_TYPES.map fun sensorType => (t, z, l, sensorType) := by
    simp [envComboInner, List.map_flatMap, List.map_map, Function.comp_def]
  rw [hshape]
  apply stFold_flatMap
  intro z sz
  apply stFold_flatMap
  intro l sl
  apply stMap_map
  intro sensorType ss
  rfl

theorem envComboInner_nodup : envComboInner.Nodup := by decide

/-- In a duplicate-free list, a member is counted exactly once. -/
theorem countP_eq_one_of_nodup {α : Type} [DecidableEq α] {l : List α}
    (hn : l.Nodup) {c : α} (hc : c ∈ l) :
    l.countP (fun k => decide (k = c)) = 1 := by
  induction l with
  | nil => cases hc
  | cons a l ih =>
    rw [List.countP_cons]
    rcases List.mem_cons.1 hc with rfl | h
    · have hz : l.countP (fun k => decide (k = c)) = 0 := by
        apply List.countP_eq_zero.2
        intro x hx
        simp only [decide_eq_true_eq]
        intro he
        subst he
        exact (List.nodup_cons.1 hn).1 hx
      simp [hz]
    · have hne : a ≠ c := by
        rintro rfl
        exact (List.nodup_cons.1 hn).1 h
      rw [ih (List.nodup_cons.1 hn).2 h]
      simp [hne]

theorem envCombos_eq_product (startT stopT : ℕ) :
    envCombos startT stopT = (ticksFrom startT 300 stopT) ×ˢ envComboInner := rfl

theorem envCombos_nodup (startT stopT : ℕ) : (envCombos startT stopT).Nodup := by
  rw [envCombos_eq_product]
  exact List.Nodup.product (ticksFrom_nodup (by norm_num)) envComboInner_nodup

/-- C9 counterexample: one day of 5-minute ticks (00:00 to 23:55, 288
ticks) yields 4 x 5 x 3 x 288 = 17,280 environmental rows, and the
code's inclusive iteration over a full day (00:00 of the next day
included) yields 17,340 — neither is the claimed 4,320; the claim's own
product `4 x 5 x 3 x 288` is 17,280, not 4,320. -/
theorem c9_counterexample :
    (generate_env_sensor_data zeroWorld 0 86100 state0).1.length = 17280 ∧
    (generate_env_sensor_data zeroWorld 0 86400 state0).1.length = 17340 ∧
    (17280 : ℕ) ≠ 4320 ∧ (17340 : ℕ) ≠ 4320 := by
  refine ⟨?_, ?_, by norm_num, by norm_num⟩
  · rw [env_length, ticksFrom_length (by norm_num)]
  · rw [env_length, ticksFrom_length (by norm_num)]

/-- C9 amended: the environmental table is the exhaustive cross-product
— its key trace equals the tick x zone x line x sensor-type product
list (exactly one row per combination, in order), its length is
`4 * 5 * 3 * number-of-ticks`; a 1-day range of 288 five-minute ticks
therefore yields 4 x 5 x 3 x 288 = 17,280 rows (not 4,320 as the spec's
arithmetic has it). -/
theorem c9_amended (w : World) (startT stopT : ℕ) (s : RState) :
    ((generate_env_sensor_data w startT stopT s).1).map envKey
      = envCombos startT stopT ∧
    (generate_env_sensor_data w startT stopT s).1.length
      = 4 * 5 * 3 * (ticksFrom startT 300 stopT).length ∧
    (envCombos startT stopT).Nodup ∧
    (∀ c ∈ envCombos startT stopT,
      (generate_env_sensor_data w startT stopT s).1.countP
        (fun r => decide (envKey r = c)) = 1) ∧
    (generate_env_sensor_data w 0 86100 s).1.length = 17280 := by
  refine ⟨envSensors_map_key w startT stopT s, ?_, envCombos_nodup startT stopT,
    ?_, ?_⟩
  · rw [env_length]
  · intro c hc
    have hcount : (generate_env_sensor_data w startT stopT s).1.countP
        (fun r => decide (envKey r = c))
        = (((generate_env_sensor_data w startT stopT s).1).map envKey).countP
            (fun k => decide (k = c)) := by
      rw [List.countP_map]
      rfl
    rw [hcount, envSensors_map_key w startT stopT s]
    exact countP_eq_one_of_nodup (envCombos_nodup startT stopT) hc
  · rw [env_length, ticksFrom_length (by norm_num)]

/-- Witness for the amended C9: with the all-zero stream world, the
very first combination (tick 0, ZONE_A, LINE_1, HUMIDITY) of a
single-tick range appears on exactly one row. -/
theorem c9_amended_witness :
    (0, "ZONE_A", "LINE_1", "HUMIDITY") ∈ envCombos 0 0 ∧
    (generate_env_sensor_data zeroWorld 0 0 state0).1.countP
      (fun r => decide (envKey r = (0, "ZONE_A", "LINE_1", "HUMIDITY"))) = 1 :=
  ⟨by decide,
    (c9_amended zeroWorld 0 0 state0).2.2.2.1 _ (by decide)⟩

/-! ## Claim C2: timestamp ranges of every table -/

theorem daysList_mem {d : ℕ} (hd : d ∈ daysList) : d ≤ 91 := by
  have h := List.mem_range.1 hd
  norm_num [END_DATE, secondsPerDay] at h
  omega

theorem envTs_all (w : World) (s : RState) :
    ((generate_env_sensor_data w START_DATE END_DATE s).1.all envTsOk) = true := by
  unfold generate_env_sensor_data
  apply stFold_all_mem
  intro t ht s'
  obtain ⟨h1, h2⟩ := ticksFrom_mem ht
  unfold envTick
  apply stFold_all
  intro z sz
  apply stFold_all
  intro l sl
  apply stMap_all
  intro sensorType ss
  unfold envRecord envTsOk
  dsimp only
  rw [decide_eq_true_eq]
  exact ⟨h1, h2⟩

theorem agvTs_all (w : World) (s : RState) :
    ((generate_agv_telemetry w s).1.all agvTsOk) = true := by
  unfold generate_agv_telemetry
  apply stFold_all_mem
  intro t ht s'
  obtain ⟨h1, h2⟩ := ticksFrom_mem ht
  unfold agvTick
  apply stMap_all
  intro agv sa
  unfold agvRecord agvTsOk
  dsimp only
  rw [decide_eq_true_eq]
  exact ⟨h1, h2, rfl⟩

theorem equipTs_all (w : World) (s : RState) :
    ((generate_equipment_states w s).1.all equipTsOk) = true := by
  unfold generate_equipment_states
  apply stFold_all_mem
  intro d hd s'
  have hd91 : d ≤ 91 := daysList_mem hd
  unfold equipDay
  apply stFold_all
  intro line sl
  apply stMap_all_mem
  intro hour hh s''
  have h23 : hour ≤ 23 := by
    have := List.mem_range.1 hh
    omega
  unfold equipRecord equipTsOk
  dsimp only
  rw [decide_eq_true_eq]
  refine ⟨by simp [START_DATE], ?_, rfl⟩
  simp only [END_DATE, secondsPerDay]
  omega

theorem shiftStartHour_cases (shift : String) :
    shiftStartHour shift = 6 ∨ shiftStartHour shift = 14 ∨
      shiftStartHour shift = 22 := by
  unfold shiftStartHour
  split_ifs <;> simp

theorem ordersTs_all (w : World) (s : RState) :
    ((generate_prod_orders w s).1.all orderTsOk) = true := by
  unfold generate_prod_orders
  dsimp only
  apply stFold_all_mem
  intro d hd sn
  have hd91 := daysList_mem hd
  unfold ordersDay
  apply stFold_all
  intro line sl
  apply stMap_all
  intro shift ss
  unfold orderRecord orderTsOk
  dsimp only
  rw [decide_eq_true_eq]
  refine ⟨by simp [START_DATE], ?_, rfl, rfl, ?_⟩
  · rcases shiftStartHour_cases shift with h | h | h <;>
      simp only [h, END_DATE, secondsPerDay] <;> omega
  · split_ifs <;> simp

theorem pyRandint_toNat_le (w : World) {a b : ℤ} (h : a ≤ b) (s : RState) :
    ((pyRandint w a b s).1).toNat ≤ b.toNat := by
  obtain ⟨h1, h2⟩ := pyRandint_bounds w h s
  omega

theorem matPosting_bound (w : World) (d : ℕ) (X Y : RState) (hd : d ≤ 91) :
    d * secondsPerDay + ((pyRandint w 0 23 X).1).toNat * 3600 +
      ((pyRandint w 0 59 Y).1).toNat * 60 ≤ END_DATE + 23 * 3600 + 59 * 60 := by
  have h1 := pyRandint_bounds w (show (0 : ℤ) ≤ 23 by norm_num) X
  have h2 := pyRandint_bounds w (show (0 : ℤ) ≤ 59 by norm_num) Y
  simp only [END_DATE, secondsPerDay]
  omega

theorem matDocsTs_all (w : World) (s : RState) :
    ((generate_material_documents w s).1.all matDocTsOk) = true := by
  unfold generate_material_documents
  dsimp only
  apply stFold_all_mem
  intro d hd sn
  have hd91 := daysList_mem hd
  unfold matDocsDay
  dsimp only
  apply stMap_all
  intro k sp
  unfold matDocRecord matDocTsOk
  dsimp only
  rw [decide_eq_true_eq]
  constructor
  · simp only [END_DATE, secondsPerDay]
    omega
  · exact matPosting_bound w d _ _ hd91

theorem opeDate_all (w : World) (s : RState) :
    ((generate_ope_daily_fact w s).1.all opeDateOk) = true := by
  unfold generate_ope_daily_fact
  apply stFold_all_mem
  intro d hd s'
  have hd91 := daysList_mem hd
  unfold opeDay
  apply stFold_all
  intro line sl
  apply stMap_all
  intro shift ss
  unfold opeRecord opeDateOk
  dsimp only
  rw [decide_eq_true_eq]
  simp only [END_DATE, secondsPerDay]
  omega

theorem faDate_all (w : World) (s : RState) :
    ((generate_agv_failure_analysis w s).1.all faDateOk) = true := by
  unfold generate_agv_failure_analysis
  apply stFold_all_mem
  intro d hd s'
  have hd91 := daysList_mem hd
  unfold faDay
  apply stFold_all_mem
  intro hour hh s''
  have h23 : hour ≤ 23 := by
    have := List.mem_range.1 hh
    omega
  apply stMap_all
  intro zone sz
  unfold faRecord faDateOk
  dsimp only
  rw [decide_eq_true_eq]
  constructor
  · simp only [END_DATE, secondsPerDay]
    omega
  · exact h23

/-- C2 amended: every row's timestamps stay within the configured
range in the following per-table sense — the datetime-stepped tables
(environmental readings, AGV telemetry) lie within
`[START_DATE, END_DATE]` exactly; the date-stepped tables cover the
whole final calendar day, so equipment events reach `END_DATE + 23h`,
material-document CDC timestamps reach `END_DATE + 23h59m`, and
production orders start no later than `END_DATE + 22h` with the
scheduled (and actual) end exactly 8 hours later — the last day's
third shift therefore ends at 06:00 of the day after `END_DATE`; the
pre-aggregated tables' dates stay within the configured days. -/
theorem c2_amended (w : World) (s : RState) :
    ((generate_env_sensor_data w START_DATE END_DATE s).1.all envTsOk) = true ∧
    ((generate_agv_telemetry w s).1.all agvTsOk) = true ∧
    ((generate_equipment_states w s).1.all equipTsOk) = true ∧
    ((generate_prod_orders w s).1.all orderTsOk) = true ∧
    ((generate_material_documents w s).1.all matDocTsOk) = true ∧
    ((generate_ope_daily_fact w s).1.all opeDateOk) = true ∧
    ((generate_agv_failure_analysis w s).1.all faDateOk) = true :=
  ⟨envTs_all w s, agvTs_all w s, equipTs_all w s, ordersTs_all w s,
    matDocsTs_all w s, opeDate_all w s, faDate_all w s⟩

/-- C2 counterexample: rows do fall outside `[START_DATE, END_DATE]` —
the equipment-state table has an event at 23:00 of the last day
(`END_DATE` is midnight Dec 31, so that event lies after it), and the
production-order table's last-day third shift has its scheduled end at
06:00 on Jan 1, outside the range even when the whole final day is
granted. -/
theorem c2_counterexample :
    (∃ r ∈ (generate_equipment_states zeroWorld state0).1,
      END_DATE < r.EVENT_TIMESTAMP) ∧
    (∃ r ∈ (generate_prod_orders zeroWorld state0).1,
      END_DATE + secondsPerDay < r.SCHED_END) := by
  constructor
  · unfold generate_equipment_states
    refine stFold_exists _ _ 91 ?_ _ (by decide) _
    intro s
    unfold equipDay
    refine stFold_exists _ _ "LINE_1" ?_ _ (by decide) _
    intro s1
    refine stMap_exists _ _ 23 ?_ _ (by decide) _
    intro s2
    simp only [equipRecord]
    norm_num [END_DATE, secondsPerDay]
  · unfold generate_prod_orders
    dsimp only
    refine stFold_exists _ _ 91 ?_ _ (by decide) _
    intro sn
    unfold ordersDay
    refine stFold_exists _ _ "LINE_1" ?_ _ (by decide) _
    intro sn1
    refine stMap_exists _ _ "SHIFT_3" ?_ _ (by decide) _
    intro sn2
    have h22 : shiftStartHour "SHIFT_3" = 22 := rfl
    simp only [orderRecord, h22]
    norm_num [END_DATE, secondsPerDay]

/-- C10: every row of the hourly failure-analysis table satisfies the
accounting invariants — successful plus failed operations equal total
operations, the error total equals the failed operations, the four
named error-code counts plus the other-error count sum to the error
total, and all these counts are nonnegative. -/
theorem c10_failure_accounting (w : World) (s : RState) :
    ((generate_agv_failure_analysis w s).1.all faAccountingOk) = true := by
  unfold generate_agv_failure_analysis
  apply stFold_all
  intro d sd
  unfold faDay
  apply stFold_all
  intro hour sh
  apply stMap_all
  intro zone sz
  exact faRecord_accounting w d hour zone sz

/-! ## First-row shape lemmas (used by the concrete counterexamples) -/

theorem ticksFrom_exists_cons {start stride stop : ℕ} (h : start ≤ stop) :
    ∃ tl, ticksFrom start stride stop = start :: tl := by
  unfold ticksFrom
  rw [if_pos h, List.range_succ_eq_map]
  refine ⟨(List.range ((stop - start) / stride)).map
    (fun k => start + stride * (k + 1)), ?_⟩
  simp [List.map_map, Function.comp_def, Nat.succ_eq_add_one, Nat.mul_succ,
    Nat.mul_add]

theorem daysList_cons : ∃ tl, daysList = 0 :: tl := by
  unfold daysList
  norm_num [END_DATE, secondsPerDay]
  exact ⟨_, List.range_succ_eq_map 91⟩

theorem fa_head (w : World) (s : RState) :
    (generate_agv_failure_analysis w s).1.head?
      = some (faRecord w 0 0 "ZONE_A" s).1 := by
  unfold generate_agv_failure_analysis
  obtain ⟨tl, htl⟩ := daysList_cons
  obtain ⟨tl2, htl2⟩ : ∃ tl2, List.range 24 = 0 :: tl2 :=
    ⟨_, List.range_succ_eq_map 23⟩
  rw [htl]
  simp only [stFold, faDay, htl2, stMap, ZONES]
  simp

theorem ope_head (w : World) (s : RState) :
    (generate_ope_daily_fact w s).1.head?
      = some (opeRecord w (is_crisis_period 0) 0 "LINE_1" "SHIFT_1" s).1 := by
  unfold generate_ope_daily_fact
  obtain ⟨tl, htl⟩ := daysList_cons
  rw [htl]
  simp only [stFold, opeDay, stMap, PRODUCTION_LINES, SHIFTS,
    Nat.zero_mul]
  simp

theorem env_head (w : World) (s : RState) :
    (generate_env_sensor_data w START_DATE END_DATE s).1.head?
      = some (envRecord w (is_crisis_period START_DATE) START_DATE
          "ZONE_A" "LINE_1" "HUMIDITY" s).1 := by
  unfold generate_env_sensor_data
  obtain ⟨tl, htl⟩ := ticksFrom_exists_cons (by decide : START_DATE ≤ END_DATE)
  rw [htl]
  simp only [stFold, envTick, stMap, ZONES, PRODUCTION_LINES, SENSOR_TYPES]
  simp

/-! ## Claim C3: the humidity/dust coupling -/

/-- In the crisis branch, the dust of a failure-analysis row is a
function of the same row's clamped humidity plus an independent noise
draw (`(50 - humidity) + normal(5, 3)`, then clamped). -/
theorem faEnv_crisis_dust (w : World) (s : RState) :
    (faEnv w true s).1.2
      = max 5 (min 50 ((50 - (faEnv w true s).1.1)
          + (5 + 3 * w.npSeq s.npSeed (s.npPos + 1)))) := rfl

/-- In the baseline branch, the dust of a failure-analysis row is its
own independent normal draw — no reference to the humidity value. -/
theorem faEnv_base_dust (w : World) (s : RState) :
    (faEnv w false s).1.2
      = max 2 (min 20 (10 + 2 * w.npSeq s.npSeed (s.npPos + 1))) := rfl

/-- C3 amended: the designed inverse coupling exists only in the
failure-analysis generator's crisis branch — there dust is derived from
the same row's clamped humidity plus an independent noise draw, and
with equal noise a higher humidity gives (weakly, because of clamping)
lower dust; in the baseline branch dust is sampled independently of the
humidity draw (and the OPE daily facts sample humidity and dust as two
independent uniforms, see the counterexample). -/
theorem c3_amended (w₁ w₂ : World) (s₁ s₂ : RState)
    (hnoise : w₁.npSeq s₁.npSeed (s₁.npPos + 1)
      = w₂.npSeq s₂.npSeed (s₂.npPos + 1))
    (hhum : (faEnv w₁ true s₁).1.1 ≤ (faEnv w₂ true s₂).1.1) :
    ((faEnv w₁ true s₁).1.2
      = max 5 (min 50 ((50 - (faEnv w₁ true s₁).1.1)
          + (5 + 3 * w₁.npSeq s₁.npSeed (s₁.npPos + 1))))) ∧
    ((faEnv w₂ true s₂).1.2 ≤ (faEnv w₁ true s₁).1.2) ∧
    ((faEnv w₁ false s₁).1.2 = (faEnv w₂ false s₂).1.2) := by
  refine ⟨faEnv_crisis_dust w₁ s₁, ?_, ?_⟩
  · rw [faEnv_crisis_dust w₁ s₁, faEnv_crisis_dust w₂ s₂, ← hnoise]
    exact max_le_max (le_refl 5) (min_le_min (le_refl 50) (by linarith))
  · rw [faEnv_base_dust, faEnv_base_dust, hnoise]

/-- Witness for the amended C3: `zeroWorld` and `bumpWorld` share every
draw except the first humidity draw; the coupling statement holds at
them. -/
theorem c3_amended_witness :
    ((faEnv zeroWorld true state0).1.2
      = max 5 (min 50 ((50 - (faEnv zeroWorld true state0).1.1)
          + (5 + 3 * zeroWorld.npSeq state0.npSeed (state0.npPos + 1))))) ∧
    ((faEnv bumpWorld true state0).1.2 ≤ (faEnv zeroWorld true state0).1.2) ∧
    ((faEnv zeroWorld false state0).1.2 = (faEnv bumpWorld false state0).1.2) :=
  c3_amended zeroWorld bumpWorld state0 state0
    (by norm_num [zeroWorld, bumpWorld, state0])
    (by norm_num [faEnv, npNormal, zeroWorld, bumpWorld, state0])

/-- C3 counterexample: not every record holding both a humidity and a
dust value derives the dust from the record's humidity.  `zeroWorld`
and `bumpWorld` agree on every raw draw except the first humidity draw;
the first (baseline) failure-analysis row's humidity then differs
(45 vs 50) while its dust is unchanged (10 in both) — under the claimed
`dust = inverse(humidity) + noise` with identical noise, a humidity
change of +5 would shift the dust by -5.  Likewise `zeroWorld` and
`pyBumpWorld` differ only in the OPE humidity uniform, and the first
OPE row's humidity differs (42 vs 45) with dust unchanged (8): both
tables sample dust independently of humidity outside the crisis branch
of the failure-analysis generator. -/
theorem c3_counterexample :
    ((generate_agv_failure_analysis zeroWorld state0).1.head?.map
        (fun r => (r.AVG_HUMIDITY, r.AVG_DUST_PM25))) = some (45, 10) ∧
    ((generate_agv_failure_analysis bumpWorld state0).1.head?.map
        (fun r => (r.AVG_HUMIDITY, r.AVG_DUST_PM25))) = some (50, 10) ∧
    ((generate_ope_daily_fact zeroWorld state0).1.head?.map
        (fun r => (r.AVG_HUMIDITY, r.AVG_DUST_PM25))) = some (42, 8) ∧
    ((generate_ope_daily_fact pyBumpWorld state0).1.head?.map
        (fun r => (r.AVG_HUMIDITY, r.AVG_DUST_PM25))) = some (45, 8) := by
  have hC : is_crisis_period (0 * secondsPerDay + 0 * 3600) = false := rfl
  have hC0 : is_crisis_period 0 = false := rfl
  refine ⟨?_, ?_, ?_, ?_⟩
  · rw [fa_head]
    simp only [faRecord, hC, Option.map_some', faEnv, npNormal, zeroWorld, state0]
    norm_num [pyRound, Prod.ext_iff]
  · rw [fa_head]
    simp only [faRecord, hC, Option.map_some', faEnv, npNormal, bumpWorld, state0]
    norm_num [pyRound, Prod.ext_iff]
  · rw [ope_head]
    simp only [opeRecord, opeBranch, hC0, Option.map_some', pyUniform, pyRandom,
      pyRandint, zeroWorld, state0]
    norm_num [pyRound, Prod.ext_iff, Int.fract]
  · rw [ope_head]
    simp only [opeRecord, opeBranch, hC0, Option.map_some', pyUniform, pyRandom,
      pyRandint, pyBumpWorld, state0]
    norm_num [pyRound, Prod.ext_iff, Int.fract]

/-! ## Claim C1: reproducibility of regeneration

The six uuid-free generators read only the two seeded modules, so their
output commutes with any change of the uuid entropy cursor; the
reseeding in `generate_single_dataset` then makes their content a
function of the seed alone.  The three uuid-bearing generators are not
reproducible (counterexample below). -/

theorem setUuidN_fst (sn : RState × ℕ) (u : ℕ) :
    (setUuidN sn u).1 = setUuid sn.1 u := rfl

theorem setUuidN_snd (sn : RState × ℕ) (u : ℕ) : (setUuidN sn u).2 = sn.2 := rfl

theorem setUuidN_pair (x : RState) (n u : ℕ) :
    ((setUuid x u, n) : RState × ℕ) = setUuidN (x, n) u := rfl

theorem pyRandom_update (w : World) (s : RState) (u : ℕ) :
    pyRandom w (setUuid s u) = ((pyRandom w s).1, setUuid (pyRandom w s).2 u) :=
  rfl

theorem pyUniform_update (w : World) (a b : ℚ) (s : RState) (u : ℕ) :
    pyUniform w a b (setUuid s u)
      = ((pyUniform w a b s).1, setUuid (pyUniform w a b s).2 u) := rfl

theorem pyRandint_update (w : World) (a b : ℤ) (s : RState) (u : ℕ) :
    pyRandint w a b (setUuid s u)
      = ((pyRandint w a b s).1, setUuid (pyRandint w a b s).2 u) := rfl

theorem pyChoice_update {α : Type} (w : World) (l : List α) (d : α) (s : RState)
    (u : ℕ) :
    pyChoice w l d (setUuid s u)
      = ((pyChoice w l d s).1, setUuid (pyChoice w l d s).2 u) := rfl

theorem npNormal_update (w : World) (mu sigma : ℚ) (s : RState) (u : ℕ) :
    npNormal w mu sigma (setUuid s u)
      = ((npNormal w mu sigma s).1, setUuid (npNormal w mu sigma s).2 u) := rfl

theorem orderRecord_update (w : World) (c : Bool) (d : ℕ) (line shift : String)
    (sn : RState × ℕ) (u : ℕ) :
    orderRecord w c d line shift (setUuidN sn u)
      = ((orderRecord w c d line shift sn).1,
          setUuidN (orderRecord w c d line shift sn).2 u) := by
  unfold orderRecord
  simp only [setUuidN_fst, setUuidN_snd, pyChoice_update, pyRandint_update,
    pyUniform_update]
  split_ifs <;> rfl

theorem matDocRecord_update (w : World) (c : Bool) (d : ℕ)
    (sn : RState × ℕ) (u : ℕ) :
    matDocRecord w c d (setUuidN sn u)
      = ((matDocRecord w c d sn).1, setUuidN (matDocRecord w c d sn).2 u) := by
  unfold matDocRecord
  simp only [setUuidN_fst, setUuidN_snd, pyChoice_update, pyRandint_update,
    pyRandom_update]
  split_ifs <;> rfl

theorem opeBranch_update (w : World) (c : Bool) (line : String) (s : RState)
    (u : ℕ) :
    opeBranch w c line (setUuid s u)
      = ((opeBranch w c line s).1, setUuid (opeBranch w c line s).2 u) := by
  unfold opeBranch
  simp only [pyUniform_update, pyRandint_update, pyRandom_update]
  split_ifs <;> rfl

theorem opeRecord_update (w : World) (c : Bool) (d : ℕ) (line shift : String)
    (s : RState) (u : ℕ) :
    opeRecord w c d line shift (setUuid s u)
      = ((opeRecord w c d line shift s).1,
          setUuid (opeRecord w c d line shift s).2 u) := by
  unfold opeRecord
  simp only [pyUniform_update, pyRandint_update, opeBranch_update]

theorem faEnv_update (w : World) (c : Bool) (s : RState) (u : ℕ) :
    faEnv w c (setUuid s u) = ((faEnv w c s).1, setUuid (faEnv w c s).2 u) := by
  cases c <;> rfl

theorem faFailureRate_update (w : World) (dust : ℚ) (s : RState) (u : ℕ) :
    faFailureRate w dust (setUuid s u)
      = ((faFailureRate w dust s).1, setUuid (faFailureRate w dust s).2 u) := by
  unfold faFailureRate
  split_ifs <;> rfl

theorem faRecord_update (w : World) (d hour : ℕ) (zone : String) (s : RState)
    (u : ℕ) :
    faRecord w d hour zone (setUuid s u)
      = ((faRecord w d hour zone s).1,
          setUuid (faRecord w d hour zone s).2 u) := by
  unfold faRecord
  simp only [faEnv_update, faFailureRate_update, pyRandint_update,
    pyUniform_update, npNormal_update]

theorem assetLineRecord_update (line : String) (sn : RState × ℕ) (u : ℕ) :
    assetLineRecord line (setUuidN sn u)
      = ((assetLineRecord line sn).1, setUuidN (assetLineRecord line sn).2 u) :=
  rfl

theorem assetAgvRecord_update (w : World) (agv : String) (sn : RState × ℕ)
    (u : ℕ) :
    assetAgvRecord w agv (setUuidN sn u)
      = ((assetAgvRecord w agv sn).1, setUuidN (assetAgvRecord w agv sn).2 u) :=
  rfl

theorem productRecord_update (w : World) (ip : ℕ × Product) (s : RState)
    (u : ℕ) :
    productRecord w ip (setUuid s u)
      = ((productRecord w ip s).1, setUuid (productRecord w ip s).2 u) := rfl

theorem ordersDay_update (w : World) (d : ℕ) (sn : RState × ℕ) (u : ℕ) :
    ordersDay w d (setUuidN sn u)
      = ((ordersDay w d sn).1, setUuidN (ordersDay w d sn).2 u) := by
  unfold ordersDay
  exact stFold_update _ setUuidN
    (fun line sn' v => stMap_update _ setUuidN
      (fun shift sn'' v' =>
        orderRecord_update w (is_crisis_period (d * secondsPerDay)) d line
          shift sn'' v') SHIFTS sn' v)
    PRODUCTION_LINES sn u

theorem prodOrders_update (w : World) (s : RState) (u : ℕ) :
    generate_prod_orders w (setUuid s u)
      = ((generate_prod_orders w s).1,
          setUuid (generate_prod_orders w s).2 u) := by
  unfold generate_prod_orders
  rw [show ((setUuid s u, 1000000) : RState × ℕ)
    = setUuidN (s, 1000000) u from rfl,
    stFold_update (ordersDay w) setUuidN (ordersDay_update w) daysList
      (s, 1000000) u]
  rfl

theorem matDocsDay_update (w : World) (d : ℕ) (sn : RState × ℕ) (u : ℕ) :
    matDocsDay w d (setUuidN sn u)
      = ((matDocsDay w d sn).1, setUuidN (matDocsDay w d sn).2 u) := by
  unfold matDocsDay
  simp only [setUuidN_fst, setUuidN_snd, pyRandint_update, setUuidN_pair]
  exact stMap_update _ setUuidN
    (fun k sn' v =>
      matDocRecord_update w (is_crisis_period (d * secondsPerDay)) d sn' v)
    _ _ u

theorem matDocs_update (w : World) (s : RState) (u : ℕ) :
    generate_material_documents w (setUuid s u)
      = ((generate_material_documents w s).1,
          setUuid (generate_material_documents w s).2 u) := by
  unfold generate_material_documents
  rw [show ((setUuid s u, 5000000) : RState × ℕ)
    = setUuidN (s, 5000000) u from rfl,
    stFold_update (matDocsDay w) setUuidN (matDocsDay_update w) daysList
      (s, 5000000) u]
  rfl

theorem ope_update (w : World) (s : RState) (u : ℕ) :
    generate_ope_daily_fact w (setUuid s u)
      = ((generate_ope_daily_fact w s).1,
          setUuid (generate_ope_daily_fact w s).2 u) := by
  unfold generate_ope_daily_fact
  exact stFold_update (opeDay w) setUuid
    (fun d sd v => by
      unfold opeDay
      exact stFold_update _ setUuid
        (fun line s' v' => stMap_update _ setUuid
          (fun shift s'' v'' =>
            opeRecord_update w (is_crisis_period (d * secondsPerDay)) d line
              shift s'' v'') SHIFTS s' v')
        PRODUCTION_LINES sd v)
    daysList s u

theorem fa_update (w : World) (s : RState) (u : ℕ) :
    generate_agv_failure_analysis w (setUuid s u)
      = ((generate_agv_failure_analysis w s).1,
          setUuid (generate_agv_failure_analysis w s).2 u) := by
  unfold generate_agv_failure_analysis
  exact stFold_update (faDay w) setUuid
    (fun d sd v => by
      unfold faDay
      exact stFold_update _ setUuid
        (fun hour s' v' => stMap_update _ setUuid
          (fun zone s'' v'' => faRecord_update w d hour zone s'' v'')
          ZONES s' v')
        (List.range 24) sd v)
    daysList s u

theorem dimAsset_update (w : World) (s : RState) (u : ℕ) :
    generate_dim_asset w (setUuid s u)
      = ((generate_dim_asset w s).1, setUuid (generate_dim_asset w s).2 u) := by
  unfold generate_dim_asset
  have h1 := stMap_update assetLineRecord setUuidN
    (fun line sn v => assetLineRecord_update line sn v) PRODUCTION_LINES
  have h2 := stMap_update (assetAgvRecord w) setUuidN
    (fun agv sn v => assetAgvRecord_update w agv sn v) AGVS
  rw [show ((setUuid s u, 1) : RState × ℕ) = setUuidN (s, 1) u from rfl]
  simp only [h1, h2, setUuidN_fst, setUuidN_snd]

theorem dimProduct_update (w : World) (s : RState) (u : ℕ) :
    generate_dim_product w (setUuid s u)
      = ((generate_dim_product w s).1,
          setUuid (generate_dim_product w s).2 u) := by
  unfold generate_dim_product
  exact stMap_update (productRecord w) setUuid
    (fun ip s' v => productRecord_update w ip s' v) PRODUCTS.enum s u

theorem prodOrdersDf_update (w : World) (s : RState) (u : ℕ) :
    prodOrdersDf w (setUuid s u)
      = ((prodOrdersDf w s).1, setUuid (prodOrdersDf w s).2 u) := by
  unfold prodOrdersDf
  rw [prodOrders_update]

theorem materialDocumentsDf_update (w : World) (s : RState) (u : ℕ) :
    materialDocumentsDf w (setUuid s u)
      = ((materialDocumentsDf w s).1, setUuid (materialDocumentsDf w s).2 u) := by
  unfold materialDocumentsDf
  rw [matDocs_update]

theorem opeDailyFactDf_update (w : World) (s : RState) (u : ℕ) :
    opeDailyFactDf w (setUuid s u)
      = ((opeDailyFactDf w s).1, setUuid (opeDailyFactDf w s).2 u) := by
  unfold opeDailyFactDf
  rw [ope_update]

theorem agvFailureAnalysisDf_update (w : World) (s : RState) (u : ℕ) :
    agvFailureAnalysisDf w (setUuid s u)
      = ((agvFailureAnalysisDf w s).1,
          setUuid (agvFailureAnalysisDf w s).2 u) := by
  unfold agvFailureAnalysisDf
  rw [fa_update]

theorem dimAssetDf_update (w : World) (s : RState) (u : ℕ) :
    dimAssetDf w (setUuid s u)
      = ((dimAssetDf w s).1, setUuid (dimAssetDf w s).2 u) := by
  unfold dimAssetDf
  rw [dimAsset_update]

theorem dimProductDf_update (w : World) (s : RState) (u : ℕ) :
    dimProductDf w (setUuid s u)
      = ((dimProductDf w s).1, setUuid (dimProductDf w s).2 u) := by
  unfold dimProductDf
  rw [dimProduct_update]

/-- A generator whose output commutes with the uuid cursor produces,
after the runner's reseed, the same frame from any two prior process
states. -/
theorem reseed_indep (G : World → RState → Df × RState) (w : World)
    (hG : ∀ s u, G w (setUuid s u) = ((G w s).1, setUuid (G w s).2 u))
    (s₁ s₂ : RState) :
    (G w (reseedState s₁)).1 = (G w (reseedState s₂)).1 := by
  have h1 : reseedState s₂ = setUuid (reseedState s₁) s₂.uuidPos := rfl
  rw [h1, hG]

/-- The success/content/report of `generate_single_dataset` depend only
on what the dataset's generator produces from the reseeded state. -/
theorem gsd_congr (w : World) (name outputDir : String) (s₁ s₂ : RState)
    (h : ∀ cfg : DatasetConfig, DATASETS.lookup name = some cfg →
      (cfg.generator w (reseedState s₁)).1
        = (cfg.generator w (reseedState s₂)).1) :
    (generate_single_dataset w name outputDir s₁).success
      = (generate_single_dataset w name outputDir s₂).success ∧
    (generate_single_dataset w name outputDir s₁).written
      = (generate_single_dataset w name outputDir s₂).written ∧
    (generate_single_dataset w name outputDir s₁).reported
      = (generate_single_dataset w name outputDir s₂).reported := by
  unfold generate_single_dataset
  cases hl : DATASETS.lookup name with
  | none => exact ⟨rfl, rfl, rfl⟩
  | some cfg =>
    have hdf := h cfg hl
    dsimp only
    rw [hdf]
    exact ⟨by split_ifs <;> rfl, by split_ifs <;> rfl, by split_ifs <;> rfl⟩

/-- C1 amended: for the six datasets whose generators never call
`generate_uuid` (prod_orders, material_documents, ope_daily_fact,
agv_failure_analysis, dim_asset, dim_product), regenerating via
`generate_single_dataset` with the same seed, parameters and output
directory produces identical success, identical written content and
identical reports from any two prior process states — the per-dataset
reseed makes their content a function of the fixed seed alone.  The
three datasets whose rows contain uuid4 identifiers (env_sensors,
agv_telemetry, equipment_states) are not byte-identical across
regenerations (see the counterexample). -/
theorem c1_amended (w : World) (outputDir : String) (s₁ s₂ : RState)
    (name : String) (hname : name ∈ UUID_FREE_DATASETS) :
    (generate_single_dataset w name outputDir s₁).success
      = (generate_single_dataset w name outputDir s₂).success ∧
    (generate_single_dataset w name outputDir s₁).written
      = (generate_single_dataset w name outputDir s₂).written ∧
    (generate_single_dataset w name outputDir s₁).reported
      = (generate_single_dataset w name outputDir s₂).reported := by
  fin_cases hname
  · refine gsd_congr w _ outputDir s₁ s₂ fun cfg hcfg => ?_
    rw [show DATASETS.lookup "prod_orders" = some ⟨"prod_orders.csv",
      prodOrdersDf, "Production orders from SAP", 1000⟩ from rfl] at hcfg
    cases hcfg
    exact reseed_indep prodOrdersDf w (prodOrdersDf_update w) s₁ s₂
  · refine gsd_congr w _ outputDir s₁ s₂ fun cfg hcfg => ?_
    rw [show DATASETS.lookup "material_documents" = some ⟨"material_documents.csv",
      materialDocumentsDf, "Material movements from SAP", 5000⟩ from rfl] at hcfg
    cases hcfg
    exact reseed_indep materialDocumentsDf w (materialDocumentsDf_update w) s₁ s₂
  · refine gsd_congr w _ outputDir s₁ s₂ fun cfg hcfg => ?_
    rw [show DATASETS.lookup "ope_daily_fact" = some ⟨"ope_daily_fact.csv",
      opeDailyFactDf, "Pre-aggregated OPE daily metrics", 1000⟩ from rfl] at hcfg
    cases hcfg
    exact reseed_indep opeDailyFactDf w (opeDailyFactDf_update w) s₁ s₂
  · refine gsd_congr w _ outputDir s₁ s₂ fun cfg hcfg => ?_
    rw [show DATASETS.lookup "agv_failure_analysis"
      = some ⟨"agv_failure_analysis.csv", agvFailureAnalysisDf,
        "Hourly AGV failure analysis for ML", 8000⟩ from rfl] at hcfg
    cases hcfg
    exact reseed_indep agvFailureAnalysisDf w (agvFailureAnalysisDf_update w) s₁ s₂
  · refine gsd_congr w _ outputDir s₁ s₂ fun cfg hcfg => ?_
    rw [show DATASETS.lookup "dim_asset" = some ⟨"dim_asset.csv", dimAssetDf,
      "Asset dimension table", 20⟩ from rfl] at hcfg
    cases hcfg
    exact reseed_indep dimAssetDf w (dimAssetDf_update w) s₁ s₂
  · refine gsd_congr w _ outputDir s₁ s₂ fun cfg hcfg => ?_
    rw [show DATASETS.lookup "dim_product" = some ⟨"dim_product.csv",
      dimProductDf, "Product dimension table", 5⟩ from rfl] at hcfg
    cases hcfg
    exact reseed_indep dimProductDf w (dimProductDf_update w) s₁ s₂

/-- Witness for the amended C1: regenerating dim_product from a fresh
state and from a state with one uuid already consumed gives identical
outcomes. -/
theorem c1_amended_witness :
    (generate_single_dataset zeroWorld "dim_product" "data/synthetic"
        state0).success
      = (generate_single_dataset zeroWorld "dim_product" "data/synthetic"
          shiftedState).success ∧
    (generate_single_dataset zeroWorld "dim_product" "data/synthetic"
        state0).written
      = (generate_single_dataset zeroWorld "dim_product" "data/synthetic"
          shiftedState).written ∧
    (generate_single_dataset zeroWorld "dim_product" "data/synthetic"
        state0).reported
      = (generate_single_dataset zeroWorld "dim_product" "data/synthetic"
          shiftedState).reported :=
  c1_amended zeroWorld "data/synthetic" state0 shiftedState "dim_product"
    (by decide)

/-- No column of a non-empty environmental frame is all-null: every
cell of the first row is populated. -/
theorem envRow_index_not_null (r : EnvReading) (t : List EnvReading) (i : ℕ)
    (hi : i < 10) :
    isNullColumn ⟨envCols, (r :: t).map envRow⟩ i = false := by
  interval_cases i <;>
    simp [isNullColumn, envRow, cS, cQ, cN]

set_option maxRecDepth 8192 in
/-- The environmental frame always passes `validate_dataframe`: its row
count is fixed at 1,572,540 by the loop structure, no column is
all-null and the column names are distinct. -/
theorem env_df_valid (w : World) (s : RState) :
    validate_dataframe (envSensorsDf w s).1 1500000 = (true, []) := by
  have hlen : (envSensorsDf w s).1.rows.length = 1572540 := by
    unfold envSensorsDf
    dsimp only
    rw [List.length_map, env_length, ticksFrom_length (by decide)]
    norm_num [START_DATE, END_DATE, secondsPerDay]
  obtain ⟨r, t, hrt⟩ := List.exists_cons_of_ne_nil
    (show (generate_env_sensor_data w START_DATE END_DATE s).1 ≠ [] by
      intro hnil
      have := env_length w START_DATE END_DATE s
      rw [hnil, ticksFrom_length (by decide)] at this
      norm_num [START_DATE, END_DATE, secondsPerDay] at this)
  have hdf : (envSensorsDf w s).1 = ⟨envCols, (r :: t).map envRow⟩ := by
    unfold envSensorsDf
    dsimp only
    rw [hrt]
  have hnull : nullColumnNames (envSensorsDf w s).1 = [] := by
    unfold nullColumnNames
    rw [List.map_eq_nil_iff, List.filter_eq_nil_iff]
    intro a ha
    rw [hdf] at ha ⊢
    rw [show (⟨envCols, (r :: t).map envRow⟩ : Df).cols.enum
      = [(0, "READING_ID"), (1, "SENSOR_ID"), (2, "SENSOR_TYPE"),
         (3, "ZONE_ID"), (4, "PRODUCTION_LINE_ID"), (5, "READING_TIMESTAMP"),
         (6, "METRIC_NAME"), (7, "METRIC_VALUE"), (8, "UNIT_OF_MEASURE"),
         (9, "QUALITY_FLAG")] from rfl] at ha
    fin_cases ha <;>
      simp only [envRow_index_not_null r t 0 (by norm_num),
        envRow_index_not_null r t 1 (by norm_num),
        envRow_index_not_null r t 2 (by norm_num),
        envRow_index_not_null r t 3 (by norm_num),
        envRow_index_not_null r t 4 (by norm_num),
        envRow_index_not_null r t 5 (by norm_num),
        envRow_index_not_null r t 6 (by norm_num),
        envRow_index_not_null r t 7 (by norm_num),
        envRow_index_not_null r t 8 (by norm_num),
        envRow_index_not_null r t 9 (by norm_num),
        Bool.false_eq_true, not_false_eq_true]
  unfold validate_dataframe
  rw [hlen, hnull, show (envSensorsDf w s).1.cols = envCols by rw [hdf]]
  norm_num
  decide

set_option maxRecDepth 1024 in
/-- C1 counterexample: regenerating env_sensors through
`generate_single_dataset` with the same seed, parameters and output
directory is not byte-identical, and is not independent of what was
generated before — `uuid.uuid4` draws from a process entropy source the
fixed seed does not control, so after any earlier uuid consumption the
READING_ID column changes (first row: uuid "0" versus uuid "1"). -/
theorem c1_counterexample :
    (generate_single_dataset zeroWorld "env_sensors" "data/synthetic"
        state0).written
      ≠ (generate_single_dataset zeroWorld "env_sensors" "data/synthetic"
          shiftedState).written := by
  have hw : ∀ s : RState,
      (generate_single_dataset zeroWorld "env_sensors" "data/synthetic"
          s).written
        = some ("data/synthetic" ++ "/" ++ "env_sensors.csv",
            (envSensorsDf zeroWorld (reseedState s)).1) := by
    intro s
    unfold generate_single_dataset
    rw [show DATASETS.lookup "env_sensors" = some ⟨"env_sensors.csv",
      envSensorsDf, "Environmental sensor readings (humidity, dust, temperature)",
      1500000⟩ from rfl]
    dsimp only
    rw [env_df_valid zeroWorld (reseedState s)]
    rfl
  rw [hw state0, hw shiftedState]
  intro heq
  have hdf : (envSensorsDf zeroWorld (reseedState state0)).1
      = (envSensorsDf zeroWorld (reseedState shiftedState)).1 :=
    congrArg Prod.snd (Option.some.inj heq)
  have hrows : ∀ s : RState, (envSensorsDf zeroWorld s).1.rows
      = (generate_env_sensor_data zeroWorld START_DATE END_DATE s).1.map
          envRow := by
    intro s
    unfold envSensorsDf
    dsimp only
  have h2 : ((generate_env_sensor_data zeroWorld START_DATE END_DATE
        (reseedState state0)).1.map envRow).head?
      = ((generate_env_sensor_data zeroWorld START_DATE END_DATE
          (reseedState shiftedState)).1.map envRow).head? := by
    rw [← hrows, ← hrows, hdf]
  rw [List.head?_map, List.head?_map, env_head, env_head,
    Option.map_some', Option.map_some',
    show is_crisis_period START_DATE = false from by decide] at h2
  have h3 := congrArg (fun l => l.getD 0 none) (Option.some.inj h2)
  norm_num [envRow, List.getD_cons_zero, cS, envRecord, envValue,
    generate_uuid, npNormal, zeroWorld, reseedState, state0, shiftedState,
    Option.some.injEq, Cell.str.injEq] at h3
  exact absurd h3 (by decide)

/-! ## Claim C7: validation-failure handling -/

/-- `List.lookup` only returns values stored in the association list. -/
theorem lookup_mem {β : Type} (l : List (String × β)) (a : String) (b : β)
    (h : l.lookup a = some b) : b ∈ l.map Prod.snd := by
  induction l with
  | nil => simp [List.lookup] at h
  | cons x l ih =>
    obtain ⟨k, v⟩ := x
    simp only [List.lookup] at h
    split at h
    · injection h with h
      subst h
      simp
    · simp [ih h]

/-- The environmental generator never returns an empty list. -/
theorem env_ne_nil (w : World) (s : RState) :
    (generate_env_sensor_data w START_DATE END_DATE s).1 ≠ [] := by
  unfold generate_env_sensor_data
  refine stFold_ne_nil _ _ (ticksFrom_ne_nil (by decide)) (fun t s' => ?_) s
  unfold envTick
  dsimp only
  refine stFold_ne_nil _ _ (by decide) (fun zone s2 => ?_) _
  refine stFold_ne_nil _ _ (by decide) (fun line s3 => ?_) _
  exact stMap_ne_nil _ _ (by decide) _

/-- The AGV telemetry generator never returns an empty list. -/
theorem agv_ne_nil (w : World) (s : RState) :
    (generate_agv_telemetry w s).1 ≠ [] := by
  unfold generate_agv_telemetry
  refine stFold_ne_nil _ _ (ticksFrom_ne_nil (by decide)) (fun t s' => ?_) s
  unfold agvTick
  dsimp only
  exact stMap_ne_nil _ _ (by decide) _

/-- The equipment-state generator never returns an empty list. -/
theorem equip_ne_nil (w : World) (s : RState) :
    (generate_equipment_states w s).1 ≠ [] := by
  unfold generate_equipment_states
  refine stFold_ne_nil _ _ (by decide) (fun d s' => ?_) s
  unfold equipDay
  dsimp only
  refine stFold_ne_nil _ _ (by decide) (fun line s2 => ?_) _
  exact stMap_ne_nil _ _ (by decide) _

/-- The production-order generator never returns an empty list. -/
theorem orders_ne_nil (w : World) (s : RState) :
    (generate_prod_orders w s).1 ≠ [] := by
  unfold generate_prod_orders
  dsimp only
  refine stFold_ne_nil _ _ (by decide) (fun d sn => ?_) _
  unfold ordersDay
  dsimp only
  refine stFold_ne_nil _ _ (by decide) (fun line sn2 => ?_) _
  exact stMap_ne_nil _ _ (by decide) _

/-- Each day produces `randint(50, 100) >= 50` material documents, so a
day's material movements are never empty. -/
theorem matDocsDay_ne_nil (w : World) (d : ℕ) (sn : RState × ℕ) :
    (matDocsDay w d sn).1 ≠ [] := by
  unfold matDocsDay
  dsimp only
  apply stMap_ne_nil
  have h50 := (pyRandint_bounds w (show (50 : ℤ) ≤ 100 by norm_num) sn.1).1
  intro hnil
  rw [List.range_eq_nil] at hnil
  omega

/-- The material-document generator never returns an empty list. -/
theorem matDocs_ne_nil (w : World) (s : RState) :
    (generate_material_documents w s).1 ≠ [] := by
  unfold generate_material_documents
  dsimp only
  exact stFold_ne_nil _ _ (by decide) (fun d sn => matDocsDay_ne_nil w d sn) _

/-- The OPE daily-fact generator never returns an empty list. -/
theorem ope_ne_nil (w : World) (s : RState) :
    (generate_ope_daily_fact w s).1 ≠ [] := by
  unfold generate_ope_daily_fact
  refine stFold_ne_nil _ _ (by decide) (fun d s' => ?_) s
  unfold opeDay
  dsimp only
  refine stFold_ne_nil _ _ (by decide) (fun line s2 => ?_) _
  exact stMap_ne_nil _ _ (by decide) _

/-- The failure-analysis generator never returns an empty list. -/
theorem fa_ne_nil (w : World) (s : RState) :
    (generate_agv_failure_analysis w s).1 ≠ [] := by
  unfold generate_agv_failure_analysis
  refine stFold_ne_nil _ _ (by decide) (fun d s' => ?_) s
  unfold faDay
  refine stFold_ne_nil _ _ (by decide) (fun hour s2 => ?_) _
  exact stMap_ne_nil _ _ (by decide) _

/-- The asset dimension always has its five line rows. -/
theorem dimAsset_ne_nil (w : World) (s : RState) :
    (generate_dim_asset w s).1 ≠ [] := by
  unfold generate_dim_asset
  dsimp only
  intro h
  rcases List.append_eq_nil.1 h with ⟨h1, _⟩
  exact stMap_ne_nil _ _ (by decide) _ h1

/-- The product dimension always has one row per product. -/
theorem dimProduct_ne_nil (w : World) (s : RState) :
    (generate_dim_product w s).1 ≠ [] := by
  unfold generate_dim_product
  apply stMap_ne_nil
  intro h
  have hl := congrArg List.length h
  simp [PRODUCTS] at hl

/-- On a non-empty frame, `validate_dataframe` reports every violated
rule, not only the first one found. -/
theorem validate_complete (df : Df) (m : ℕ) (hne : df.rows ≠ []) :
    (df.rows.length < m →
      ValidationError.rowCountBelow df.rows.length m
        ∈ (validate_dataframe df m).2)
    ∧ (nullColumnNames df ≠ [] →
      ValidationError.nullColumns (nullColumnNames df)
        ∈ (validate_dataframe df m).2)
    ∧ (df.cols.length ≠ df.cols.dedup.length →
      ValidationError.duplicateColumns ∈ (validate_dataframe df m).2) := by
  have hlen : ¬ df.rows.length = 0 := by
    simpa [List.length_eq_zero] using hne
  unfold validate_dataframe
  rw [if_neg hlen]
  dsimp only
  refine ⟨fun h => ?_, fun h => ?_, fun h => ?_⟩
  · simp [h]
  · cases hln : nullColumnNames df with
    | nil => exact absurd hln h
    | cons a l => simp [hln]
  · simp [h]

/-- C7: for every registered dataset name, when validation of the
generated table fails, `generate_single_dataset` returns failure, writes
nothing, and reports the validator's full error list; the generated
table is never empty, and that list contains every violated rule — the
row-count error whenever the count is below the minimum, the null-column
error whenever some column is entirely null, and the duplicate-column
error whenever the column names repeat. -/
theorem c7_validation_failure (w : World) (name outputDir : String)
    (s : RState) (cfg : DatasetConfig)
    (hcfg : DATASETS.lookup name = some cfg)
    (hfail : (validate_dataframe ((cfg.generator w (reseedState s)).1)
        cfg.expected_min_rows).1 = false) :
    (generate_single_dataset w name outputDir s).success = false
    ∧ (generate_single_dataset w name outputDir s).written = none
    ∧ (generate_single_dataset w name outputDir s).reported
        = (validate_dataframe ((cfg.generator w (reseedState s)).1)
            cfg.expected_min_rows).2
    ∧ ((cfg.generator w (reseedState s)).1).rows ≠ []
    ∧ (((cfg.generator w (reseedState s)).1).rows.length
          < cfg.expected_min_rows →
        ValidationError.rowCountBelow
            ((cfg.generator w (reseedState s)).1).rows.length
            cfg.expected_min_rows
          ∈ (validate_dataframe ((cfg.generator w (reseedState s)).1)
              cfg.expected_min_rows).2)
    ∧ (nullColumnNames ((cfg.generator w (reseedState s)).1) ≠ [] →
        ValidationError.nullColumns
            (nullColumnNames ((cfg.generator w (reseedState s)).1))
          ∈ (validate_dataframe ((cfg.generator w (reseedState s)).1)
              cfg.expected_min_rows).2)
    ∧ (((cfg.generator w (reseedState s)).1).cols.length
          ≠ ((cfg.generator w (reseedState s)).1).cols.dedup.length →
        ValidationError.duplicateColumns
          ∈ (validate_dataframe ((cfg.generator w (reseedState s)).1)
              cfg.expected_min_rows).2) := by
  have hne : ((cfg.generator w (reseedState s)).1).rows ≠ [] := by
    have hmem := lookup_mem DATASETS name cfg hcfg
    fin_cases hmem <;> (try dsimp only)
    · unfold envSensorsDf
      dsimp only
      simp only [ne_eq, List.map_eq_nil_iff]
      exact env_ne_nil w _
    · unfold agvTelemetryDf
      dsimp only
      simp only [ne_eq, List.map_eq_nil_iff]
      exact agv_ne_nil w _
    · unfold equipmentStatesDf
      dsimp only
      simp only [ne_eq, List.map_eq_nil_iff]
      exact equip_ne_nil w _
    · unfold prodOrdersDf
      dsimp only
      simp only [ne_eq, List.map_eq_nil_iff]
      exact orders_ne_nil w _
    · unfold materialDocumentsDf
      dsimp only
      simp only [ne_eq, List.map_eq_nil_iff]
      exact matDocs_ne_nil w _
    · unfold opeDailyFactDf
      dsimp only
      simp only [ne_eq, List.map_eq_nil_iff]
      exact ope_ne_nil w _
    · unfold agvFailureAnalysisDf
      dsimp only
      simp only [ne_eq, List.map_eq_nil_iff]
      exact fa_ne_nil w _
    · unfold dimAssetDf
      dsimp only
      simp only [ne_eq, List.map_eq_nil_iff]
      exact dimAsset_ne_nil w _
    · unfold dimProductDf
      dsimp only
      simp only [ne_eq, List.map_eq_nil_iff]
      exact dimProduct_ne_nil w _
  obtain ⟨hrc, hnc, hdc⟩ :=
    validate_complete ((cfg.generator w (reseedState s)).1)
      cfg.expected_min_rows hne
  refine ⟨?_, ?_, ?_, hne, hrc, hnc, hdc⟩ <;>
    (unfold generate_single_dataset
     rw [hcfg]
     dsimp only
     rw [if_neg (by simp [hfail])])

/-- At `zeroWorld` every `randint(50, 100)` draw is 50, so each day has
exactly 50 material documents. -/
theorem matDocsDay_length_zero (d : ℕ) (sn : RState × ℕ) :
    (matDocsDay zeroWorld d sn).1.length = 50 := by
  unfold matDocsDay
  dsimp only
  rw [stMap_length, List.length_range]
  norm_num [pyRandint, pyRandom, zeroWorld, Int.fract_zero]
  decide

/-- At `zeroWorld` the material-document table has `92 * 50 = 4600`
rows. -/
theorem matDocs_length_zero (s : RState) :
    (generate_material_documents zeroWorld s).1.length = 4600 := by
  unfold generate_material_documents
  dsimp only
  rw [stFold_length _ 50 (fun d sn => matDocsDay_length_zero d sn)
    daysList (s, 5000000)]
  decide

/-- 4,600 rows are below the configured 5,000 minimum: at `zeroWorld`
the material-document frame fails validation. -/
theorem matDocs_validation_fails (s : RState) :
    (validate_dataframe (materialDocumentsDf zeroWorld s).1 5000).1
      = false := by
  have hlen : (materialDocumentsDf zeroWorld s).1.rows.length = 4600 := by
    unfold materialDocumentsDf
    dsimp only
    rw [List.length_map, matDocs_length_zero]
  unfold validate_dataframe
  rw [hlen]
  norm_num

/-- Witness for C7: at `zeroWorld` the material-document dataset really
fails validation (4,600 rows < 5,000), and the runner then returns
failure and writes nothing. -/
theorem c7_validation_failure_witness :
    (validate_dataframe ((materialDocumentsDf zeroWorld
        (reseedState state0)).1) 5000).1 = false
    ∧ (generate_single_dataset zeroWorld "material_documents"
        "data/synthetic" state0).success = false
    ∧ (generate_single_dataset zeroWorld "material_documents"
        "data/synthetic" state0).written = none :=
  ⟨matDocs_validation_fails (reseedState state0),
   (c7_validation_failure zeroWorld "material_documents" "data/synthetic"
      state0
      ⟨"material_documents.csv", materialDocumentsDf,
       "Material movements from SAP", 5000⟩
      rfl (matDocs_validation_fails (reseedState state0))).1,
   (c7_validation_failure zeroWorld "material_documents" "data/synthetic"
      state0
      ⟨"material_documents.csv", materialDocumentsDf,
       "Material movements from SAP", 5000⟩
      rfl (matDocs_validation_fails (reseedState state0))).2.1⟩

/-! ## Claim C8: the cross-dataset validator result -/

/-- Under the column well-formedness that the generator output always
has, the only errors `runJoinCheck` can produce are orphaned-value
errors. -/
theorem runJoinCheck_errors_orphan (datasets : List (String × Df))
    (c : String × String × JoinTarget × Option String × String)
    (hc : checkColumnsOk datasets c = true) :
    ∀ e ∈ (runJoinCheck datasets c).1, isOrphanError e = true := by
  obtain ⟨sds, scol, tgt, tcol, desc⟩ := c
  intro e he
  unfold runJoinCheck at he
  unfold checkColumnsOk at hc
  dsimp only at he hc
  cases hl : datasets.lookup sds with
  | none =>
    rw [hl] at he
    simp at he
  | some sourceDf =>
    rw [hl] at he hc
    dsimp only at he hc
    rw [Bool.and_eq_true] at hc
    rw [if_neg (by simp [hc.1])] at he
    cases tgt with
    | const l =>
      dsimp only at he
      split at he
      · simp at he
      · simp only [List.mem_singleton] at he
        subst he
        rfl
    | dataset tds =>
      dsimp only at he
      obtain ⟨hc1, hc2⟩ := hc
      cases hlt : datasets.lookup tds with
      | none =>
        rw [hlt] at he
        simp at he
      | some targetDf =>
        rw [hlt] at he
        dsimp only at hc2
        rw [hlt] at hc2
        dsimp only at he hc2
        rw [if_neg (by simp [hc2])] at he
        split at he
        · simp at he
        · simp only [List.mem_singleton] at he
          subst he
          rfl

/-- A list with a false `isEmpty` flag is non-empty. -/
theorem isEmpty_false_iff {α : Type} (l : List α) :
    l.isEmpty = false ↔ l ≠ [] := by
  cases l <;> simp

/-- Membership in the error component of the validator's check fold. -/
theorem joinFold_mem (l : List (List JoinError × List JoinWarning × ℕ))
    (e : JoinError) :
    e ∈ (l.foldr
        (fun r acc => (r.1 ++ acc.1, r.2.1 ++ acc.2.1, r.2.2 + acc.2.2))
        ([], [], 0)).1
      ↔ ∃ r ∈ l, e ∈ r.1 := by
  induction l with
  | nil => simp
  | cons a l ih => simp [List.mem_append, ih]

/-- C8 counterexample: with no datasets present, `validate_joins`
returns failure outright while finding no referential-integrity error
at all, so the overall result is not determined solely by the presence
of orphaned values. -/
theorem c8_counterexample :
    (validate_joins emptyDir).result = false
    ∧ (validate_joins emptyDir).errors = [] := by
  constructor <;> rfl

/-- C8 amended: once at least one dataset is present and every loaded
check column exists (which the generator's own output guarantees), the
validator fails exactly when some foreign-key check finds orphaned
values: every reported error is an orphaned-values error and the result
bit is the emptiness of that error list, so narrative and cardinality
deviations (warnings) never flip it. -/
theorem c8_amended (dir : String → Option Df)
    (hne : (DATASETS.filterMap fun nc =>
        (dir nc.1).map fun df => (nc.1, df)) ≠ [])
    (hcols : ∀ c ∈ JOIN_CHECKS,
      checkColumnsOk (DATASETS.filterMap fun nc =>
        (dir nc.1).map fun df => (nc.1, df)) c = true) :
    ((validate_joins dir).result = false
      ↔ ∃ e ∈ (validate_joins dir).errors, isOrphanError e = true)
    ∧ ∀ e ∈ (validate_joins dir).errors, isOrphanError e = true := by
  unfold validate_joins
  dsimp only
  rw [if_neg (by simpa [List.isEmpty_iff] using hne)]
  dsimp only
  have hall : ∀ e ∈ ((JOIN_CHECKS.map (runJoinCheck
      (DATASETS.filterMap fun nc => (dir nc.1).map fun df => (nc.1, df)))).foldr
      (fun r acc => (r.1 ++ acc.1, r.2.1 ++ acc.2.1, r.2.2 + acc.2.2))
      ([], [], 0)).1, isOrphanError e = true := by
    intro e he
    rw [joinFold_mem] at he
    obtain ⟨r, hr, her⟩ := he
    obtain ⟨c, hcmem, rfl⟩ := List.mem_map.1 hr
    exact runJoinCheck_errors_orphan _ c (hcols c hcmem) e her
  refine ⟨⟨fun h => ?_, fun h => ?_⟩, hall⟩
  · rw [isEmpty_false_iff] at h
    obtain ⟨e, he⟩ := List.exists_mem_of_ne_nil _ h
    exact ⟨e, he, hall e he⟩
  · obtain ⟨e, he, _⟩ := h
    rw [isEmpty_false_iff]
    exact List.ne_nil_of_mem he

/-- Witness for C8 at a directory holding only the product dimension:
its dataset list is non-empty, every check column is well-formed, and
the equivalence of the amended claim holds there. -/
theorem c8_amended_witness :
    (DATASETS.filterMap fun nc =>
        (oneProductDir nc.1).map fun df => (nc.1, df)) ≠ []
    ∧ ((validate_joins oneProductDir).result = false
        ↔ ∃ e ∈ (validate_joins oneProductDir).errors,
            isOrphanError e = true) :=
  ⟨by decide, (c8_amended oneProductDir (by decide) (by decide)).1⟩

end VoltStream
